import Mathlib

/-!
# Verification of the tellerquoter configuration-driven pricing rule engine

Shallow embedding of the pricing rule engine of `backend/app/services/`:
`rule_engine.py` (condition/formula evaluation, SKU selection),
`quote_calculation_service.py` (discounts, travel, multi-year projection,
complexity factor) and `configuration_service.py` (pricing-version lookup).

Modelling choices, used consistently below:
* Python / JSON values are the inductive `Val`.  Python `float` is modelled
  as an exact rational (`ℚ`); binary rounding of doubles is out of scope.
  `decimal.Decimal` is likewise modelled as `ℚ` (its 28-significant-digit
  context never rounds on the magnitudes exercised here).
* Python `dict` is an association list `List (String × Val)` without
  duplicate keys; `dict.get` is `lookupKey`.
* Fallible Python code is modelled in `Except PyErr`; an uncaught Python
  exception is `.error e`.
* Database access is modelled by the read-only maps of `PricingDB`
  (current pricing version, active pricing rules per version, travel zones),
  mirroring the SQLAlchemy queries' filters.
-/

/-- Python exception kinds that the translated code can raise. -/
inductive PyErr where
  /-- `ValueError(msg)` -/
  | valueError (msg : String)
  /-- `TypeError` -/
  | typeError
  /-- `AttributeError` (e.g. `.get` / `.split` on a non-dict / non-str) -/
  | attributeError
  /-- `decimal.InvalidOperation` raised by `Decimal(str)` on bad input;
  it subclasses `ArithmeticError`, NOT `ValueError`/`TypeError`. -/
  | invalidOperation
deriving Repr, DecidableEq

/-- A Python/JSON value as stored in the JSONB configuration columns and in
evaluation contexts.  `vfloat` models a Python float as an exact rational. -/
inductive Val where
  | vnone  : Val
  | vbool  : Bool → Val
  | vint   : Int → Val
  | vfloat : ℚ → Val
  | vstr   : String → Val
  | vlist  : List Val → Val
  | vdict  : List (String × Val) → Val
deriving Repr

/-- `dict` lookup on an association list (no duplicate keys): Python
`d.get(key)` without default returns `None`, here `Option`. -/
def lookupKey : List (String × Val) → String → Option Val
  | [], _ => none
  | (k, v) :: rest, key => if k = key then some v else lookupKey rest key

/-- Python `d.get(key, default)`. -/
def dictGet (d : List (String × Val)) (key : String) (default : Val) : Val :=
  (lookupKey d key).getD default

/-- Python truthiness (`bool(v)`). -/
def pyTruthy : Val → Bool
  | .vnone => false
  | .vbool b => b
  | .vint n => n != 0
  | .vfloat q => q != 0
  | .vstr s => s ≠ ""
  | .vlist l => !l.isEmpty
  | .vdict d => !d.isEmpty

/-- The numeric value of a Python number (`bool`, `int`, `float`); `none`
for non-numbers.  Python compares and mixes these numerically. -/
def pyNum? : Val → Option ℚ
  | .vbool b => some (if b then 1 else 0)
  | .vint n => some (n : ℚ)
  | .vfloat q => some q
  | _ => none

/-- `v matches vstr s` — Python `v == "s"` for a string literal `s`
(cross-type `==` against a `str` is `False`). -/
def isStr (v : Val) (s : String) : Bool :=
  match v with
  | .vstr t => t = s
  | _ => false

mutual

/-- Python `==` on values: numbers compare numerically across
`bool`/`int`/`float`; strings compare as strings; lists elementwise;
dicts by key set and per-key equality; every other cross-kind pair is
unequal.  Never raises. -/
def pyEq : Val → Val → Bool
  | .vstr a, .vstr b => a = b
  | .vnone, .vnone => true
  | .vlist a, .vlist b => pyEqList a b
  | .vdict a, .vdict b => a.length = b.length && pyEqDict a b
  | a, b =>
    match pyNum? a, pyNum? b with
    | some x, some y => x = y
    | _, _ => false

/-- Elementwise Python `==` on lists. -/
def pyEqList : List Val → List Val → Bool
  | [], [] => true
  | a :: as', b :: bs => pyEq a b && pyEqList as' bs
  | _, _ => false

/-- One-sided dict inclusion used by `pyEq` (with equal lengths this is
Python dict equality, since keys are unique). -/
def pyEqDict : List (String × Val) → List (String × Val) → Bool
  | [], _ => true
  | (k, v) :: rest, b =>
    (match lookupKey b k with
     | some w => pyEq v w
     | none => false) && pyEqDict rest b

end

/-- Parse a non-empty all-digit character list into a `Nat`. -/
def parseNatDigits? (cs : List Char) : Option Nat :=
  if cs.isEmpty then none
  else cs.foldl
    (fun acc c =>
      match acc with
      | none => none
      | some n => if c.isDigit then some (n * 10 + (c.toNat - 48)) else none)
    (some 0)

/-- Split a leading `+`/`-` sign off a character list. -/
def splitSign : List Char → Int × List Char
  | '-' :: rest => (-1, rest)
  | '+' :: rest => (1, rest)
  | cs => (1, cs)

/-- Split a character list on a separator character (semantics of
`List.splitOn`, restated structurally). -/
def splitOnChar (c : Char) : List Char → List (List Char)
  | [] => [[]]
  | x :: rest =>
    if x = c then [] :: splitOnChar c rest
    else
      match splitOnChar c rest with
      | r :: rs => (x :: r) :: rs
      | [] => [[x]]

/-- Parse an unsigned decimal mantissa `digits[.digits]` (at least one digit
overall, as `float()`/`Decimal()` require). -/
def parseMantissa? (cs : List Char) : Option ℚ :=
  match splitOnChar '.' cs with
  | [ip] =>
    (parseNatDigits? ip).map (fun n => (n : ℚ))
  | [ip, fp] =>
    if ip.isEmpty && fp.isEmpty then none
    else
      match parseNatDigits? (ip ++ fp) with
      | some n => some ((n : ℚ) / (10 : ℚ) ^ fp.length)
      | none =>
        -- one side may be empty ("1." / ".5"); both-empty rejected above
        if ip.isEmpty then (parseNatDigits? fp).map (fun n => (n : ℚ) / (10 : ℚ) ^ fp.length)
        else if fp.isEmpty then (parseNatDigits? ip).map (fun n => (n : ℚ))
        else none
  | _ => none

/-- Strip leading/trailing spaces (model of `str.strip()`; fragment: only
the space character). -/
def trimSpaces (cs : List Char) : List Char :=
  ((cs.dropWhile (· = ' ')).reverse.dropWhile (· = ' ')).reverse

/-- Model of Python numeric-string parsing shared by `float(s)` and
`Decimal(s)`: optional surrounding spaces, optional sign, decimal mantissa,
optional `e`/`E` exponent.  (Fragment model: `inf`/`nan` and digit
underscores are out of scope.) -/
def parsePyNumber? (s : String) : Option ℚ :=
  let cs := trimSpaces s.toList
  let (sgn, cs) := splitSign cs
  let eSplit := splitOnChar 'e' cs
  let eSplit := if eSplit.length = 1 then splitOnChar 'E' cs else eSplit
  match eSplit with
  | [m] => (parseMantissa? m).map (fun q => sgn * q)
  | [m, ex] =>
    match parseMantissa? m with
    | none => none
    | some q =>
      let (esgn, ed) := splitSign ex
      match parseNatDigits? ed with
      | none => none
      | some e => some (sgn * q * (10 : ℚ) ^ (esgn * (e : Int)))
  | _ => none

/-- Model of Python `float(v)`: numbers coerce numerically, numeric strings
parse, everything else fails (`ValueError`/`TypeError` → `none`). -/
def pyFloat? : Val → Option ℚ
  | .vbool b => some (if b then 1 else 0)
  | .vint n => some (n : ℚ)
  | .vfloat q => some q
  | .vstr s => parsePyNumber? s
  | _ => none

/-- Model of `Decimal(str(v))` as used throughout the engine: ints and
floats convert exactly (`str(float)` round-trips and `float` is modelled as
its exact rational), numeric strings parse; for every other value
(`bool` → `"True"`, `None`, lists, dicts, non-numeric strings) `Decimal`
raises `InvalidOperation` (→ `none` here; call sites decide whether that
exception is caught). -/
def pyDecimal? : Val → Option ℚ
  | .vint n => some (n : ℚ)
  | .vfloat q => some q
  | .vstr s => parsePyNumber? s
  | _ => none

/-- Model of Python `int(v)`: bools/ints exact, floats truncate toward
zero, integer-literal strings parse; `none` is `ValueError`/`TypeError`. -/
def pyInt? : Val → Option Int
  | .vbool b => some (if b then 1 else 0)
  | .vint n => some n
  | .vfloat q => some (q.num.tdiv (q.den : Int))
  | .vstr s =>
    let (sgn, cs) := splitSign (trimSpaces s.toList)
    (parseNatDigits? cs).map (fun n => sgn * (n : Int))
  | _ => none

/-- Model of Python `str(float)` (used when substituting variable values
into `calculated` expressions): integral floats print as `n.0`, finite
decimal expansions print plainly; a rational with no short decimal
expansion (unreachable from the doubles Python prints) falls back to an
exact parenthesised fraction. -/
def floatStr (q : ℚ) : String :=
  if q.den = 1 then toString q.num ++ ".0"
  else
    match (List.range 17).findSome?
        (fun k => if (q * (10 : ℚ) ^ (k + 1)).den = 1 then some (k + 1) else none) with
    | some m =>
      let sgn := if q < 0 then "-" else ""
      let n : Nat := (q * (10 : ℚ) ^ m).num.natAbs
      let s := toString n
      let s := if s.length ≤ m then String.mk (List.replicate (m + 1 - s.length) '0') ++ s else s
      sgn ++ s.take (s.length - m) ++ "." ++ s.drop (s.length - m)
    | none => "(" ++ toString q.num ++ "/" ++ toString q.den ++ ")"

/-- `RuleEngine._get_nested_value`'s key loop: walk the keys, descending
only through dicts; a missing key, a stored `None`, or a non-dict
intermediate node short-circuits to "not found". -/
def getNestedKeys : Val → List String → Option Val
  | v, [] => some v
  | .vdict kvs, k :: ks =>
    match lookupKey kvs k with
    | none => none
    | some .vnone => none
    | some v => getNestedKeys v ks
  | _, _ :: _ => none

namespace RuleEngine

/-- `path.split(".")` (Python `str.split` with a one-character separator,
stated structurally via `splitOnChar`). -/
def splitDots (path : String) : List String :=
  (splitOnChar '.' path.toList).map String.mk

/-- `RuleEngine._get_nested_value(obj, path)`: dot-path lookup returning
`None` (`none`) when the path is empty or does not resolve. -/
def _get_nested_value (obj : List (String × Val)) (path : String) : Option Val :=
  if path = "" then none
  else getNestedKeys (Val.vdict obj) (splitDots path)

/-- Call sites pass the raw configuration value as the path.  The guard
`if not path` returns `None` for every falsy value, then `path.split(".")`
raises `AttributeError` for any truthy non-string. -/
def getNestedOfVal (obj : List (String × Val)) (path : Val) : Except PyErr (Option Val) :=
  if pyTruthy path = false then .ok none
  else
    match path with
    | .vstr p => .ok (_get_nested_value obj p)
    | _ => .error .attributeError

end RuleEngine

/-- A key found by `lookupKey` holds a value structurally smaller than the
association list (for termination of recursion through configuration). -/
theorem sizeOf_lookupKey {l : List (String × Val)} {k : String} {v : Val}
    (h : lookupKey l k = some v) : sizeOf v < sizeOf l := by
  induction l with
  | nil => simp [lookupKey] at h
  | cons a rest ih =>
    obtain ⟨k', v'⟩ := a
    simp only [lookupKey] at h
    split at h
    · cases h
      simp only [List.cons.sizeOf_spec, Prod.mk.sizeOf_spec]
      omega
    · have := ih h
      simp only [List.cons.sizeOf_spec, Prod.mk.sizeOf_spec]
      omega

/-- Substring test (Python `needle in haystack` on strings). -/
def strContainsSub (hay needle : String) : Bool :=
  (List.range (hay.toList.length + 1)).any
    (fun i => needle.toList.isPrefixOf (hay.toList.drop i))

/-- Python `x in container`: list membership by `==`, substring test on
strings, key membership on dicts; `in` on a non-container raises
`TypeError` (as does an unhashable key probed against a dict). -/
def pyIn (x : Val) (container : Val) : Except PyErr Bool :=
  match container with
  | .vlist l => .ok (l.any (fun e => pyEq x e))
  | .vstr s =>
    match x with
    | .vstr t => .ok (strContainsSub s t)
    | _ => .error .typeError
  | .vdict d =>
    match x with
    | .vstr t => .ok ((lookupKey d t).isSome)
    | .vlist _ => .error .typeError
    | .vdict _ => .error .typeError
    | _ => .ok false
  | _ => .error .typeError

/-- `float(v)` where a failure propagates: `ValueError` for a bad string,
`TypeError` for a non-number non-string. -/
def pyFloatE (v : Val) : Except PyErr ℚ :=
  match pyFloat? v with
  | some q => .ok q
  | none =>
    match v with
    | .vstr _ => .error (.valueError "could not convert string to float")
    | _ => .error .typeError

namespace RuleEngine

/-- The `parameter_equals` branch: raw-value Python `==` between the
resolved context value (`None` when missing) and the condition's
`value`. -/
def cond_parameter_equals (c context : List (String × Val)) : Except PyErr Bool := do
  let actual ← getNestedOfVal context (dictGet c "parameter" (.vstr ""))
  .ok (pyEq (actual.getD .vnone) (dictGet c "value" .vnone))

/-- The `parameter_not_equals` branch: negated raw-value `==`. -/
def cond_parameter_not_equals (c context : List (String × Val)) : Except PyErr Bool := do
  let actual ← getNestedOfVal context (dictGet c "parameter" (.vstr ""))
  .ok (!pyEq (actual.getD .vnone) (dictGet c "value" .vnone))

/-- The `parameter_in` branch: Python `in` against the `values` list. -/
def cond_parameter_in (c context : List (String × Val)) : Except PyErr Bool := do
  let actual ← getNestedOfVal context (dictGet c "parameter" (.vstr ""))
  pyIn (actual.getD .vnone) (dictGet c "values" (.vlist []))

/-- The `parameter_greater_than` branch: `float` both sides; a missing
value, missing threshold or failed coercion yields `False`. -/
def cond_parameter_greater_than (c context : List (String × Val)) : Except PyErr Bool := do
  let actual ← getNestedOfVal context (dictGet c "parameter" (.vstr ""))
  let threshold := dictGet c "value" .vnone
  match actual, threshold with
  | none, _ => .ok false
  | _, .vnone => .ok false
  | some a, t =>
    match pyFloat? a, pyFloat? t with
    | some x, some y => .ok (decide (x > y))
    | _, _ => .ok false

/-- The `parameter_less_than` branch (mirror of `greater_than`). -/
def cond_parameter_less_than (c context : List (String × Val)) : Except PyErr Bool := do
  let actual ← getNestedOfVal context (dictGet c "parameter" (.vstr ""))
  let threshold := dictGet c "value" .vnone
  match actual, threshold with
  | none, _ => .ok false
  | _, .vnone => .ok false
  | some a, t =>
    match pyFloat? a, pyFloat? t with
    | some x, some y => .ok (decide (x < y))
    | _, _ => .ok false

/-- The `parameter_between` branch: an absent `min`/`max` key defaults to
-inf/+inf, a present one must coerce with `float`; any needed coercion
failure yields `False` (the source's left-to-right chained comparison is
extensionally the same, since failures already give `False`). -/
def cond_parameter_between (c context : List (String × Val)) : Except PyErr Bool := do
  let actual ← getNestedOfVal context (dictGet c "parameter" (.vstr ""))
  match actual with
  | none => .ok false
  | some a =>
    match pyFloat? a with
    | none => .ok false
    | some x =>
      let lo : Option Bool :=
        match lookupKey c "min" with
        | none => some true
        | some mv => (pyFloat? mv).map (fun m => decide (m ≤ x))
      let hi : Option Bool :=
        match lookupKey c "max" with
        | none => some true
        | some mv => (pyFloat? mv).map (fun m => decide (x ≤ m))
      match lo, hi with
      | some b1, some b2 => .ok (b1 && b2)
      | _, _ => .ok false

/-- The `parameter_exists` branch: the resolved value is not `None`. -/
def cond_parameter_exists (c context : List (String × Val)) : Except PyErr Bool := do
  let actual ← getNestedOfVal context (dictGet c "parameter" (.vstr ""))
  .ok actual.isSome

mutual

/-- Executable structural size of a `Val` (fuel for `evalCondFuel`). -/
def condSize : Val → Nat
  | .vlist l => condSizeList l + 1
  | .vdict d => condSizeDict d + 1
  | _ => 1

/-- Summed size of list elements. -/
def condSizeList : List Val → Nat
  | [] => 0
  | v :: r => condSize v + condSizeList r

/-- Summed size of dict entries. -/
def condSizeDict : List (String × Val) → Nat
  | [] => 0
  | kv :: r => condSize kv.2 + 1 + condSizeDict r

end

/-- The recursion of `evaluate_condition`, made structural on a fuel
argument so that it unfolds definitionally.  The fuel strictly exceeds the
condition's `condSize` at every call (each `AND`/`OR` descent loses at
least two from `condSize` and one from fuel), so the fuel-exhaustion arm is
unreachable from `evaluate_condition`.

The condition is the raw configuration value: `.get` on a non-dict raises
`AttributeError`.  Branch order, per-branch defaults and error behaviour
follow the source line by line (branch bodies are the `cond_*` helpers).
`AND`/`OR` evaluate every sub-condition (no short-circuit) and propagate
the first exception; a falsy `conditions` payload yields `True`; a truthy
non-list one raises. -/
def evalCondFuel : Nat → Val → List (String × Val) → Except PyErr Bool
  | 0, _, _ => .error .typeError
  | fuel + 1, .vdict c, context =>
    let ct := dictGet c "type" .vnone
    if isStr ct "always" then .ok true
    else if isStr ct "never" then .ok false
    else if isStr ct "parameter_equals" then cond_parameter_equals c context
    else if isStr ct "parameter_not_equals" then cond_parameter_not_equals c context
    else if isStr ct "parameter_in" then cond_parameter_in c context
    else if isStr ct "parameter_greater_than" then cond_parameter_greater_than c context
    else if isStr ct "parameter_less_than" then cond_parameter_less_than c context
    else if isStr ct "parameter_between" then cond_parameter_between c context
    else if isStr ct "parameter_exists" then cond_parameter_exists c context
    else
      let op := dictGet c "operator" .vnone
      if isStr op "AND" || isStr op "OR" then
        let conds := dictGet c "conditions" (.vlist [])
        if pyTruthy conds = false then .ok true
        else
          match conds with
          | .vlist l => do
            let results ← l.mapM (fun e => evalCondFuel fuel e context)
            .ok (if isStr op "AND" then results.all id else results.any id)
          | _ => .error .typeError
      else .ok false
  | _ + 1, _, _ => .error .attributeError

/-- `RuleEngine.evaluate_condition(condition, context)` (see
`evalCondFuel` for the semantics; the supplied fuel is always ample). -/
def evaluate_condition (condition : Val) (context : List (String × Val)) :
    Except PyErr Bool :=
  evalCondFuel (condSize condition + 1) condition context

end RuleEngine

/-! ## Model of Python expression evaluation (arithmetic fragment)

`RuleEngine.calculate_price` hands the substituted `calculated` formula to
`eval(expr, {"__builtins__": {}}, {})` followed by `Decimal(str(result))`,
and `_evaluate_formula` hands its character-filtered `expression` to the same
`eval`-then-`Decimal` pipeline.  Full Python `eval` is not embeddable;
`pyEvalArith` models the fragment those call sites exercise: numeric literals
(with decimal point and `e`/`E` exponents), unary `+`/`-`, binary `+ - * / **`
with Python precedence (`**` right-associative, binding tighter than unary
minus on its left), parentheses, plus the two non-arithmetic shapes the safe
character set `0123456789.+-*/() ` still admits — the empty tuple `()` (the
only tuple writable without a comma) and call suffixes `f(...)` (Python
parses `5()` as a call).

Because the two call sites catch DIFFERENT exceptions, the model classifies
each outcome instead of collapsing failures: Python compiles the whole string
first, so any syntax error (`EvalOutcome.syntaxError`) preempts every runtime
error; a compiled expression then evaluates operands left to right and the
first runtime exception wins — `ZeroDivisionError` (`zeroDivision`) or
`TypeError` (`typeError`: calling a number or tuple, or tuple/number mixed
arithmetic); an expression that evaluates to the empty tuple (`emptyTuple`)
makes the subsequent `Decimal(str(()))` = `Decimal("()")` raise
`decimal.InvalidOperation`.  Fragment limits, documented and untouched by
every theorem below: float arithmetic is exact rational arithmetic; `**` with
a non-integral exponent (a real-valued power in Python) is reported as the
dedicated `unsupportedPow` outcome, which both call sites map to `0`; and
sequence repetition `() * k` accepts any integral ℚ where Python accepts only
`int` (both sides of that corner raise uncaught past `_evaluate_formula`'s
handler either way). -/

/-- Expression tokens. -/
inductive Tok where
  | num (q : ℚ)
  | plus
  | minus
  | star
  | slash
  | dstar
  | lpar
  | rpar
deriving Repr, DecidableEq

/-- Scan one numeric literal: a maximal run of digits/dots, optionally
followed by an exponent part.  Returns the value and the remaining input. -/
def scanNumber (cs : List Char) : Option (ℚ × List Char) :=
  let mant := cs.takeWhile (fun c => c.isDigit || c = '.')
  let rest := cs.drop mant.length
  let withExp : Option (List Char × List Char) :=
    match rest with
    | e :: r1 =>
      if e = 'e' || e = 'E' then
        match r1 with
        | s :: r2 =>
          if s = '+' || s = '-' then
            let ds := r2.takeWhile Char.isDigit
            if ds.isEmpty then none else some (mant ++ e :: s :: ds, r2.drop ds.length)
          else
            let ds := r1.takeWhile Char.isDigit
            if ds.isEmpty then none else some (mant ++ e :: ds, r1.drop ds.length)
        | [] => none
      else some (mant, rest)
    | [] => some (mant, rest)
  match withExp with
  | none => none
  | some (tokChars, rest') =>
    match parsePyNumber? (String.mk tokChars) with
    | some q => some (q, rest')
    | none => none

/-- Fuelled tokenizer; the entry point supplies ample fuel, and running out
is reported as a scan failure (never reached from the entry point). -/
def tokenizeAux : Nat → List Char → Option (List Tok)
  | 0, _ => none
  | _ + 1, [] => some []
  | fuel + 1, c :: rest =>
    if c = ' ' then tokenizeAux fuel rest
    else if c = '+' then (tokenizeAux fuel rest).map (Tok.plus :: ·)
    else if c = '-' then (tokenizeAux fuel rest).map (Tok.minus :: ·)
    else if c = '/' then (tokenizeAux fuel rest).map (Tok.slash :: ·)
    else if c = '(' then (tokenizeAux fuel rest).map (Tok.lpar :: ·)
    else if c = ')' then (tokenizeAux fuel rest).map (Tok.rpar :: ·)
    else if c = '*' then
      match rest with
      | '*' :: rest2 => (tokenizeAux fuel rest2).map (Tok.dstar :: ·)
      | _ => (tokenizeAux fuel rest).map (Tok.star :: ·)
    else if c.isDigit || c = '.' then
      match scanNumber (c :: rest) with
      | some (q, rest2) => (tokenizeAux fuel rest2).map (Tok.num q :: ·)
      | none => none
    else none

/-- Tokenize an expression string; any character outside the arithmetic
fragment fails the scan (→ evaluation error). -/
def tokenize (s : String) : Option (List Tok) :=
  tokenizeAux (s.toList.length + 1) s.toList

/-- Abstract syntax of the fragment: numbers, the empty tuple, calls
(callee with at most one argument — the safe set has no comma), unary and
binary operators. -/
inductive PyExpr where
  | num (q : ℚ)
  | tuple0
  | call (f : PyExpr) (arg : Option PyExpr)
  | uadd (e : PyExpr)
  | uneg (e : PyExpr)
  | badd (a b : PyExpr)
  | bsub (a b : PyExpr)
  | bmul (a b : PyExpr)
  | bdiv (a b : PyExpr)
  | bpow (a b : PyExpr)
deriving Repr

/-- Runtime values of the fragment: a number, or the empty tuple. -/
inductive EvalVal where
  | num (q : ℚ)
  | tuple0
deriving Repr, DecidableEq

/-- Runtime exceptions of the fragment (syntax errors are reported at the
parse stage, before any evaluation, as Python compiles first). -/
inductive EvalErr where
  | zeroDivision
  | typeError
  | unsupportedPow
deriving Repr, DecidableEq

/-- Evaluate a compiled expression as Python would, operands left to right:
calling a number or a tuple raises `TypeError` (after callee and argument
are evaluated); unary `+`/`-` on a tuple raises `TypeError`; `() + ()` is
tuple concatenation, `() * k` (integral `k`) is sequence repetition, every
other tuple/number mix raises `TypeError`; `/` by zero and `0 ** negative`
raise `ZeroDivisionError`; a non-integral exponent is the fragment's
`unsupportedPow`. -/
def evalAst : PyExpr → Except EvalErr EvalVal
  | .num q => .ok (.num q)
  | .tuple0 => .ok .tuple0
  | .call f arg => do
    let _ ← evalAst f
    match arg with
    | some a => do
      let _ ← evalAst a
      .error .typeError
    | none => .error .typeError
  | .uadd e => do
    match ← evalAst e with
    | .num q => pure (.num q)
    | .tuple0 => .error .typeError
  | .uneg e => do
    match ← evalAst e with
    | .num q => pure (.num (-q))
    | .tuple0 => .error .typeError
  | .badd a b => do
    match ← evalAst a, ← evalAst b with
    | .num x, .num y => pure (.num (x + y))
    | .tuple0, .tuple0 => pure .tuple0
    | _, _ => .error .typeError
  | .bsub a b => do
    match ← evalAst a, ← evalAst b with
    | .num x, .num y => pure (.num (x - y))
    | _, _ => .error .typeError
  | .bmul a b => do
    match ← evalAst a, ← evalAst b with
    | .num x, .num y => pure (.num (x * y))
    | .tuple0, .num y => if y.den = 1 then pure .tuple0 else .error .typeError
    | .num x, .tuple0 => if x.den = 1 then pure .tuple0 else .error .typeError
    | .tuple0, .tuple0 => .error .typeError
  | .bdiv a b => do
    match ← evalAst a, ← evalAst b with
    | .num x, .num y => if y = 0 then .error .zeroDivision else pure (.num (x / y))
    | _, _ => .error .typeError
  | .bpow a b => do
    match ← evalAst a, ← evalAst b with
    | .num x, .num y =>
      if y.den = 1 then
        if x = 0 && y.num < 0 then .error .zeroDivision else pure (.num (x ^ y.num))
      else .error .unsupportedPow
    | _, _ => .error .typeError

mutual

/-- `expr := term (('+'|'-') term)*` -/
def parseExpr : Nat → List Tok → Option (PyExpr × List Tok)
  | 0, _ => none
  | fuel + 1, ts => do
    let (a, ts) ← parseTerm fuel ts
    parseExprRest fuel a ts

/-- Left-associated additive tail. -/
def parseExprRest : Nat → PyExpr → List Tok → Option (PyExpr × List Tok)
  | 0, _, _ => none
  | fuel + 1, acc, Tok.plus :: ts => do
    let (b, ts) ← parseTerm fuel ts
    parseExprRest fuel (PyExpr.badd acc b) ts
  | fuel + 1, acc, Tok.minus :: ts => do
    let (b, ts) ← parseTerm fuel ts
    parseExprRest fuel (PyExpr.bsub acc b) ts
  | _ + 1, acc, ts => some (acc, ts)

/-- `term := unary (('*'|'/') unary)*` -/
def parseTerm : Nat → List Tok → Option (PyExpr × List Tok)
  | 0, _ => none
  | fuel + 1, ts => do
    let (a, ts) ← parseUnary fuel ts
    parseTermRest fuel a ts

/-- Left-associated multiplicative tail. -/
def parseTermRest : Nat → PyExpr → List Tok → Option (PyExpr × List Tok)
  | 0, _, _ => none
  | fuel + 1, acc, Tok.star :: ts => do
    let (b, ts) ← parseUnary fuel ts
    parseTermRest fuel (PyExpr.bmul acc b) ts
  | fuel + 1, acc, Tok.slash :: ts => do
    let (b, ts) ← parseUnary fuel ts
    parseTermRest fuel (PyExpr.bdiv acc b) ts
  | _ + 1, acc, ts => some (acc, ts)

/-- `unary := ('+'|'-') unary | power` -/
def parseUnary : Nat → List Tok → Option (PyExpr × List Tok)
  | 0, _ => none
  | fuel + 1, Tok.minus :: ts => do
    let (e, ts) ← parseUnary fuel ts
    some (PyExpr.uneg e, ts)
  | fuel + 1, Tok.plus :: ts => do
    let (e, ts) ← parseUnary fuel ts
    some (PyExpr.uadd e, ts)
  | fuel + 1, ts => parsePower fuel ts

/-- `power := postfix ['**' unary]` (right-associative; a call suffix binds
tighter than `**`). -/
def parsePower : Nat → List Tok → Option (PyExpr × List Tok)
  | 0, _ => none
  | fuel + 1, ts => do
    let (b, ts) ← parsePostfix fuel ts
    match ts with
    | Tok.dstar :: ts2 => do
      let (e, ts3) ← parseUnary fuel ts2
      some (PyExpr.bpow b e, ts3)
    | _ => some (b, ts)

/-- `postfix := atom ('(' [expr] ')')*` — Python call syntax; the safe set
has no comma, so at most one argument. -/
def parsePostfix : Nat → List Tok → Option (PyExpr × List Tok)
  | 0, _ => none
  | fuel + 1, ts => do
    let (a, ts) ← parseAtom fuel ts
    parseCalls fuel a ts

/-- The call-suffix loop of `postfix`. -/
def parseCalls : Nat → PyExpr → List Tok → Option (PyExpr × List Tok)
  | 0, _, _ => none
  | fuel + 1, a, Tok.lpar :: Tok.rpar :: ts => parseCalls fuel (PyExpr.call a none) ts
  | fuel + 1, a, Tok.lpar :: ts => do
    let (arg, ts2) ← parseExpr fuel ts
    match ts2 with
    | Tok.rpar :: ts3 => parseCalls fuel (PyExpr.call a (some arg)) ts3
    | _ => none
  | _ + 1, a, ts => some (a, ts)

/-- `atom := number | '(' ')' | '(' expr ')'` — `()` is the empty tuple. -/
def parseAtom : Nat → List Tok → Option (PyExpr × List Tok)
  | 0, _ => none
  | _ + 1, Tok.num q :: ts => some (PyExpr.num q, ts)
  | _ + 1, Tok.lpar :: Tok.rpar :: ts => some (PyExpr.tuple0, ts)
  | fuel + 1, Tok.lpar :: ts => do
    let (e, ts) ← parseExpr fuel ts
    match ts with
    | Tok.rpar :: ts2 => some (e, ts2)
    | _ => none
  | _ + 1, _ => none

end

/-- The classified outcome of `eval(s)` followed by `Decimal(str(result))`
on the fragment: a numeric value, or the distinguishable failure kinds
(see the section comment; `emptyTuple` is the tuple result whose
`Decimal("()")` conversion raises `decimal.InvalidOperation`). -/
inductive EvalOutcome where
  | val (q : ℚ)
  | emptyTuple
  | syntaxError
  | zeroDivision
  | typeError
  | unsupportedPow
deriving Repr, DecidableEq

/-- Evaluate an arithmetic expression string as Python `eval` +
`Decimal(str(...))` would on the fragment described above, classifying the
outcome.  Compilation (tokenize + parse, with ample fuel) happens first, so
`syntaxError` preempts every runtime error, exactly as in Python. -/
def pyEvalArith (s : String) : EvalOutcome :=
  match tokenize s with
  | none => .syntaxError
  | some ts =>
    match parseExpr (10 * ts.length + 10) ts with
    | none => .syntaxError
    | some (ast, rest) =>
      if rest.isEmpty then
        match evalAst ast with
        | .ok (.num q) => .val q
        | .ok .tuple0 => .emptyTuple
        | .error .zeroDivision => .zeroDivision
        | .error .typeError => .typeError
        | .error .unsupportedPow => .unsupportedPow
      else .syntaxError

/-- A `try: ... eval ... Decimal(str(result)) except Exception: return 0`
wrapper: every outcome other than a numeric value — exceptions of any kind,
and the `Decimal("()")` failure on a tuple result — is caught as `0`.
This is `rule_engine.calculate_price`'s handler, NOT `_evaluate_formula`'s
narrower one. -/
def evalOutcomeOrZero : EvalOutcome → ℚ
  | .val r => r
  | _ => 0

/-- One fuelled step list of `str.replace`: replace every non-overlapping
occurrence of `pat` in `s` by `rep`, scanning left to right (the entry
point supplies ample fuel; Python inserts `rep` around every character for
an empty pattern, an edge the engine's variable names never hit, modelled
here as the fuel-0 identity would be — the empty pattern replaces at every
position). -/
def replaceAllFuel : Nat → List Char → List Char → List Char → List Char
  | 0, _, _, s => s
  | fuel + 1, pat, rep, s =>
    if pat.isEmpty then
      match s with
      | [] => rep
      | c :: rest => rep ++ c :: replaceAllFuel fuel pat rep rest
    else if pat.isPrefixOf s then rep ++ replaceAllFuel fuel pat rep (s.drop pat.length)
    else
      match s with
      | [] => []
      | c :: rest => c :: replaceAllFuel fuel pat rep rest

/-- Model of Python `expr.replace(pat, rep)`. -/
def pyReplace (s pat rep : String) : String :=
  String.mk (replaceAllFuel (s.toList.length + 1) pat.toList rep.toList s.toList)

namespace RuleEngine

/-- The variable-substitution pass of the `calculated` branch: for each
declared variable, resolve its dot-path in the context and coerce with
`float(...)` — `0` when the path is missing or the value non-coercible
(that `except` catches `ValueError`/`TypeError`, which covers every
`float()` failure).  A truthy non-string path raises `AttributeError`
*outside* the `try`, so it propagates. -/
def buildEvalContext : List (String × Val) → List (String × Val) →
    Except PyErr (List (String × ℚ))
  | [], _ => .ok []
  | nv :: rest, context => do
    let v ← getNestedOfVal context nv.2
    let entry :=
      match v with
      | some x => (nv.1, (pyFloat? x).getD 0)
      | none => (nv.1, (0 : ℚ))
    let tail ← buildEvalContext rest context
    pure (entry :: tail)

/-- `expr.replace(var_name, str(value))` folded over the variable dict in
insertion order. -/
def substituteVars (expr : String) (evalCtx : List (String × ℚ)) : String :=
  evalCtx.foldl (fun e nv => pyReplace e nv.1 (floatStr nv.2)) expr

/-- One tier of the `tiered` branch: `minVolume` defaults to `0`,
`maxVolume=None` means unbounded above; bound coercions (`float`) and the
price's `Decimal(str(...))` raise uncaught on bad data.  Returns the
matched price, or `none` to keep scanning. -/
def tierMatch (tier : Val) (volumeFloat : ℚ) : Except PyErr (Option ℚ) :=
  match tier with
  | .vdict td => do
    let minV ← pyFloatE (dictGet td "minVolume" (.vint 0))
    let price : Except PyErr ℚ :=
      match pyDecimal? (dictGet td "price" (.vint 0)) with
      | some p => .ok p
      | none => .error .invalidOperation
    match lookupKey td "maxVolume" with
    | none => if volumeFloat ≥ minV then do pure (some (← price)) else pure none
    | some .vnone => if volumeFloat ≥ minV then do pure (some (← price)) else pure none
    | some mv => do
      let maxV ← pyFloatE mv
      if minV ≤ volumeFloat && volumeFloat ≤ maxV then pure (some (← price)) else pure none
  | _ => .error .attributeError

/-- Scan tiers in order, first match wins. -/
def scanTiers (tiers : List Val) (volumeFloat : ℚ) : Except PyErr (Option ℚ) :=
  match tiers with
  | [] => .ok none
  | t :: rest => do
    match ← tierMatch t volumeFloat with
    | some p => pure (some p)
    | none => scanTiers rest volumeFloat

/-- `RuleEngine.calculate_price(formula, context)` (`rule_engine.py`).

Branch order and defaults follow the source.  Notable source behaviours
kept by the model: the `quantity_based` branch's `except (ValueError,
TypeError)` does NOT catch the `decimal.InvalidOperation` that
`Decimal(str(quantity))` raises on a non-numeric quantity, so that failure
propagates; and the `calculated` branch passes the substituted string to
`eval` with no character filtering, catching every exception from the
`try` block — which also contains the `Decimal(str(result))` conversion —
as `0` (`except Exception`), so every non-numeric outcome kind collapses
to `0` here (`evalOutcomeOrZero`). -/
def calculate_price (formula : List (String × Val)) (context : List (String × Val)) :
    Except PyErr ℚ :=
  let ft := dictGet formula "type" .vnone
  if isStr ft "fixed" then
    match pyDecimal? (dictGet formula "price" (.vint 0)) with
    | some q => .ok q
    | none => .error .invalidOperation
  else if isStr ft "quantity_based" then do
    let price_per_unit ←
      match pyDecimal? (dictGet formula "pricePerUnit" (.vint 0)) with
      | some q => pure q
      | none => Except.error PyErr.invalidOperation
    let qv ← getNestedOfVal context (dictGet formula "quantityParameter" (.vstr ""))
    let quantity := qv.getD (.vint 0)
    match pyDecimal? quantity with
    | some q => pure (price_per_unit * q)
    | none => Except.error PyErr.invalidOperation
  else if isStr ft "tiered" then do
    let vv ← getNestedOfVal context (dictGet formula "volumeParameter" (.vstr ""))
    let volume := vv.getD (.vint 0)
    let volume_float := (pyFloat? volume).getD 0
    let basePrice : Except PyErr ℚ :=
      match pyDecimal? (dictGet formula "basePrice" (.vint 0)) with
      | some q => .ok q
      | none => .error .invalidOperation
    match dictGet formula "tiers" (.vlist []) with
    | .vlist l => do
      match ← scanTiers l volume_float with
      | some p => pure p
      | none => basePrice
    | .vstr s => if s = "" then basePrice else .error .attributeError
    | .vdict d => if d.isEmpty then basePrice else .error .attributeError
    | _ => .error .typeError
  else if isStr ft "calculated" then
    match dictGet formula "variables" (.vdict []) with
    | .vdict vars => do
      let evalCtx ← buildEvalContext vars context
      match dictGet formula "formula" (.vstr "") with
      | .vstr e => pure (evalOutcomeOrZero (pyEvalArith (substituteVars e evalCtx)))
      | _ => pure 0
    | _ => .error .attributeError
  else .ok 0

/-- The record returned by a matching SKU selection rule. -/
structure SkuSelection where
  sku_code : Val
  quantity : Int
  reason : Val
  metadata : Val
deriving Repr

/-- `RuleEngine.evaluate_sku_selection_rule(rule, context)`: `none` when the
condition fails; otherwise the SKU details.  A string quantity is a context
path (missing → `1`, `int()` failures caught → `1`); a non-string literal
quantity goes through `int(quantity_raw) if quantity_raw else 1`, where the
`int()` call is outside any `try` (it can only fail on truthy containers). -/
def evaluate_sku_selection_rule (rule : List (String × Val))
    (context : List (String × Val)) : Except PyErr (Option SkuSelection) := do
  let condition := dictGet rule "condition" (.vdict [])
  let b ← evaluate_condition condition context
  if !b then pure none
  else do
    let quantity ←
      match dictGet rule "quantity" (.vint 1) with
      | .vstr s =>
        match _get_nested_value context s with
        | none => pure (1 : Int)
        | some x => pure ((pyInt? x).getD 1)
      | q =>
        if pyTruthy q = false then pure (1 : Int)
        else
          match pyInt? q with
          | some n => pure n
          | none => Except.error PyErr.typeError
    pure (some
      { sku_code := dictGet rule "skuCode" .vnone
        quantity
        reason := dictGet rule "reason" (.vstr "")
        metadata := dictGet rule "metadata" (.vdict []) })

end RuleEngine

/-- The single-quote character of Python `repr` on strings. -/
def pyQuote : String := String.singleton (Char.ofNat 39)

mutual

/-- Python `repr(v)` (fragment: no escape sequences inside strings; only
the shape matters to callers, which at most test character membership). -/
def pyRepr : Val → String
  | .vnone => "None"
  | .vbool b => if b then "True" else "False"
  | .vint n => toString n
  | .vfloat q => floatStr q
  | .vstr s => pyQuote ++ s ++ pyQuote
  | .vlist l => "[" ++ String.intercalate ", " (pyReprList l) ++ "]"
  | .vdict d => "\x7b" ++ String.intercalate ", " (pyReprDict d) ++ "\x7d"

/-- `repr` of the elements of a list. -/
def pyReprList : List Val → List String
  | [] => []
  | v :: rest => pyRepr v :: pyReprList rest

/-- `repr` of the entries of a dict. -/
def pyReprDict : List (String × Val) → List String
  | [] => []
  | (k, v) :: rest => (pyQuote ++ k ++ pyQuote ++ ": " ++ pyRepr v) :: pyReprDict rest

end

/-- Python `str(v)`: like `repr` except strings print unquoted. -/
def pyStr : Val → String
  | .vnone => "None"
  | .vbool b => if b then "True" else "False"
  | .vint n => toString n
  | .vfloat q => floatStr q
  | .vstr s => s
  | .vlist l => "[" ++ String.intercalate ", " (pyReprList l) ++ "]"
  | .vdict d => "\x7b" ++ String.intercalate ", " (pyReprDict d) ++ "\x7d"

/-- `Decimal(str(v))` where `InvalidOperation` propagates (no handler, or a
handler that does not catch `ArithmeticError`). -/
def pyDecimalE (v : Val) : Except PyErr ℚ :=
  match pyDecimal? v with
  | some q => .ok q
  | none => .error .invalidOperation

/-- Python `a - b` on numbers: `int`/`bool` operands give an `int`, any
`float` operand gives a `float`; non-numbers raise `TypeError`. -/
def pySub (a b : Val) : Except PyErr Val :=
  match a, b with
  | .vfloat x, _ =>
    match pyNum? b with
    | some y => .ok (.vfloat (x - y))
    | none => .error .typeError
  | _, .vfloat y =>
    match pyNum? a with
    | some x => .ok (.vfloat (x - y))
    | none => .error .typeError
  | _, _ =>
    match intValOf? a, intValOf? b with
    | some x, some y => .ok (.vint (x - y))
    | _, _ => .error .typeError
where
  /-- `int` value of an `int`/`bool`. -/
  intValOf? : Val → Option Int
    | .vbool b => some (if b then 1 else 0)
    | .vint n => some n
    | _ => none

/-- Python `max(0, v)` for a numeric `v`: the first argument (the `int` 0)
is returned when `v ≤ 0`, keeping its `int` type. -/
def pyMax0 (v : Val) : Val :=
  match pyNum? v with
  | some q => if q ≤ 0 then .vint 0 else v
  | none => v

/-- `Decimal * count` where `count` is the result of `max(0, ...)`:
multiplying a `Decimal` by an `int`/`bool` is exact, by a `float` raises
`TypeError`. -/
def pyDecimalMul (d : ℚ) (v : Val) : Except PyErr ℚ :=
  match v with
  | .vint n => .ok (d * (n : ℚ))
  | .vbool b => .ok (d * (if b then 1 else 0))
  | _ => .error .typeError

/-- `parameters.get(param_name, 0)` where `param_name` is a raw
configuration value: a string key looks up, a non-string hashable key
misses every string key (→ the default `0`), an unhashable key raises
`TypeError`. -/
def paramLookup (parameters : List (String × Val)) (param_name : Val) : Except PyErr Val :=
  match param_name with
  | .vstr s => .ok (dictGet parameters s (.vint 0))
  | .vlist _ => .error .typeError
  | .vdict _ => .error .typeError
  | _ => .ok (.vint 0)

/-- A travel zone row (`TravelZone` model): per-unit `Numeric` rates. -/
structure TravelZone where
  name : String
  airfareEstimate : ℚ
  hotelRate : ℚ
  perDiemRate : ℚ
  vehicleRate : ℚ
deriving Repr

/-- The database contents the engine reads, as read-only maps:
`currentVersionId` is the `PricingVersion` row with `IsCurrent = True`;
`activeRule version code` is the first `PricingRule` row with that
version, that `RuleCode` and `IsActive = True` (its `Configuration`
payload); `travelZone id` is the `TravelZone` row by primary key. -/
structure PricingDB where
  currentVersionId : Option String
  activeRule : String → String → Option (List (String × Val))
  travelZone : String → Option TravelZone

/-- `ConfigurationService(db, pricing_version_id)`. -/
structure ConfigurationService where
  db : PricingDB
  pricing_version_id : Option String

namespace ConfigurationService

/-- `ConfigurationService.get_pricing_version_id`: the pinned version if
one was given to the constructor, else the current version; raises
`ValueError` when neither exists.  (The per-instance cache only memoises
this pure lookup.) -/
def get_pricing_version_id (svc : ConfigurationService) : Except PyErr String :=
  match svc.pricing_version_id with
  | some vid => .ok vid
  | none =>
    match svc.db.currentVersionId with
    | some vid => .ok vid
    | none => .error (.valueError "No current pricing version found")

end ConfigurationService

/-- `QuoteCalculationService(db)`; its `ConfigurationService` is built
without a pinned version. -/
structure QuoteCalculationService where
  db : PricingDB

namespace QuoteCalculationService

/-- `self.config = ConfigurationService(db)` (no pinned version). -/
def config (svc : QuoteCalculationService) : ConfigurationService :=
  ⟨svc.db, none⟩

/-- `QuoteCalculationService._get_rule(rule_code)`: resolve the pricing
version (its `ValueError` propagates), then the active rule's
`Configuration`, `none` when missing or inactive.  The per-call rules
cache only memoises this pure lookup. -/
def _get_rule (svc : QuoteCalculationService) (rule_code : String) :
    Except PyErr (Option (List (String × Val))) := do
  let vid ← svc.config.get_pricing_version_id
  pure (svc.db.activeRule vid rule_code)

/-- One component of a `weighted_sum` formula:
`Decimal(str(weight)) * Decimal(str(parameters.get(parameter, 0)))`, with
`InvalidOperation` propagating on non-numeric data. -/
def weightedComponent (parameters : List (String × Val)) (component : Val) :
    Except PyErr ℚ :=
  match component with
  | .vdict cd => do
    let param_name := dictGet cd "parameter" (.vstr "")
    let weight ← pyDecimalE (dictGet cd "weight" (.vint 1))
    let raw ← paramLookup parameters param_name
    let value ← pyDecimalE raw
    pure (value * weight)
  | _ => .error .attributeError

/-- The safe character set of the `expression` formula type. -/
def safeChars : List Char := "0123456789.+-*/() ".toList

/-- `all(c in safe_chars for c in expression)`. -/
def isSafeExpr (s : String) : Bool :=
  s.toList.all (fun c => safeChars.contains c)

/-- The `expression` branch's substitution:
`expression.replace("{name}", str(value))` over the parameter items. -/
def substPlaceholders (expr : String) (parameters : List (String × Val)) : String :=
  parameters.foldl (fun e kv => pyReplace e ("\x7b" ++ kv.1 ++ "\x7d") (pyStr kv.2)) expr

/-- `QuoteCalculationService._evaluate_formula(formula_config, parameters)`:
`weighted_sum` (the default type) sums `value × weight`; `expression`
substitutes `{name}` placeholders, then evaluates ONLY when every character
of the substituted string lies in `safeChars`.  Filtered-out strings yield
`0`, and so do the exceptions the handler lists (`ValueError`,
`SyntaxError`, `ZeroDivisionError`) — but the filter does NOT make
evaluation total: a filter-passing string can still raise an exception the
handler does not catch, which propagates out of the method.  Concretely,
`eval` raises `TypeError` on a call such as `5()`, and a tuple result such
as `()` makes `Decimal(str(result))` raise `decimal.InvalidOperation`
(an `ArithmeticError`); neither is in the `except` tuple.  `lookup` reads
one parameter; unknown types yield `0`. -/
def _evaluate_formula (formula_config parameters : List (String × Val)) :
    Except PyErr ℚ :=
  let ft := dictGet formula_config "type" (.vstr "weighted_sum")
  if isStr ft "weighted_sum" then
    match dictGet formula_config "components" (.vlist []) with
    | .vlist comps =>
      comps.foldlM (fun acc c => do pure (acc + (← weightedComponent parameters c))) (0 : ℚ)
    | .vstr s => if s = "" then .ok 0 else .error .attributeError
    | .vdict d => if d.isEmpty then .ok 0 else .error .attributeError
    | _ => .error .typeError
  else if isStr ft "expression" then
    match dictGet formula_config "expression" (.vstr "0") with
    | .vstr e0 =>
      let e := substPlaceholders e0 parameters
      if isSafeExpr e then
        match pyEvalArith e with
        | .val r => .ok r
        | .syntaxError => .ok 0
        | .zeroDivision => .ok 0
        | .unsupportedPow => .ok 0
        | .typeError => .error .typeError
        | .emptyTuple => .error .invalidOperation
      else .ok 0
    | _ => .error .attributeError
  else if isStr ft "lookup" then do
    let raw ← paramLookup parameters (dictGet formula_config "parameter" (.vstr ""))
    pyDecimalE raw
  else .ok 0

/-- The scan loop of `_find_tier`: `min_score` defaults to `0` when the key
is absent but to `-inf` when it is `None`; `max_score` defaults to `+inf`
in both cases.  The chained comparison converts lazily, so a bad
`max_score` only raises when the lower bound already passed. -/
def findTierScan : List Val → ℚ → Except PyErr (Option Val)
  | [], _ => .ok none
  | t :: rest, score =>
    match t with
    | .vdict td => do
      let lo : Option ℚ ←
        match lookupKey td "min_score" with
        | none => pure (some 0)
        | some .vnone => pure none
        | some v =>
          match pyNum? v with
          | some m => pure (some m)
          | none => Except.error PyErr.typeError
      if !(lo.all (· ≤ score)) then findTierScan rest score
      else do
        let hi : Option ℚ ←
          match lookupKey td "max_score" with
          | none => pure none
          | some .vnone => pure none
          | some v =>
            match pyNum? v with
            | some m => pure (some m)
            | none => Except.error PyErr.typeError
        if hi.all (score ≤ ·) then pure (some (Val.vdict td))
        else findTierScan rest score
    | _ => .error .attributeError

/-- `QuoteCalculationService._find_tier(tiers, score)`: first matching
tier, else the LAST tier as default (`tiers[-1] if tiers else None`). -/
def _find_tier (tiers : List Val) (score : ℚ) : Except PyErr (Option Val) := do
  match ← findTierScan tiers score with
  | some t => pure (some t)
  | none => pure tiers.getLast?

end QuoteCalculationService

namespace QuoteCalculationService

/-- The result dict of `calculate_complexity_factor`.  Fields that the
source fills with raw configuration values stay `Val`; monetary fields are
`Decimal` (`ℚ`).  `error`, `formula_components` and `tier_thresholds`
are `Option` because the degraded and happy-path dicts carry different
keys. -/
structure CfResult where
  complexity_score : ℚ
  tier : Val
  tier_name : Val
  base_price : ℚ
  estimated_hours : Val
  sku_code : Val
  additional_dept_count : Val
  additional_dept_price : ℚ
  total_org_setup_price : ℚ
  error : Option String
  formula_components : Option Val
  tier_thresholds : Option (List Val)
deriving Repr

/-- `QuoteCalculationService.calculate_complexity_factor(parameters)`.

A missing/inactive (or empty) `COMPLEXITY_FACTOR` rule returns the
degraded defaults with an `error` field; the `ValueError` of
`get_pricing_version_id` propagates out of `_get_rule`; the formula
evaluation, tier scan and additional-items arithmetic raise on malformed
configuration exactly where the source would. -/
def calculate_complexity_factor (svc : QuoteCalculationService)
    (parameters : List (String × Val)) : Except PyErr CfResult := do
  let rule? ← svc._get_rule "COMPLEXITY_FACTOR"
  match rule? with
  | none =>
    pure
      { complexity_score := 0, tier := .vstr "UNKNOWN", tier_name := .vstr "Not Configured"
        base_price := 0, estimated_hours := .vint 0, sku_code := .vnone
        additional_dept_count := .vint 0, additional_dept_price := 0
        total_org_setup_price := 0
        error := some "COMPLEXITY_FACTOR rule not configured"
        formula_components := none, tier_thresholds := none }
  | some rule =>
    if rule.isEmpty then
      -- `if not rule:` also fires on an empty configuration dict
      pure
        { complexity_score := 0, tier := .vstr "UNKNOWN", tier_name := .vstr "Not Configured"
          base_price := 0, estimated_hours := .vint 0, sku_code := .vnone
          additional_dept_count := .vint 0, additional_dept_price := 0
          total_org_setup_price := 0
          error := some "COMPLEXITY_FACTOR rule not configured"
          formula_components := none, tier_thresholds := none }
    else do
      let formula := dictGet rule "formula"
        (.vdict [("type", .vstr "weighted_sum"), ("components", .vlist [])])
      let formulaDict ←
        match formula with
        | .vdict fd => pure fd
        | _ => Except.error PyErr.attributeError
      let complexity_score ← _evaluate_formula formulaDict parameters
      let tiersList ←
        match dictGet rule "tiers" (.vlist []) with
        | .vlist l => pure l
        | .vstr s => if s = "" then pure ([] : List Val) else Except.error PyErr.attributeError
        | .vdict d => if d.isEmpty then pure ([] : List Val) else Except.error PyErr.attributeError
        | _ => Except.error PyErr.typeError
      match ← _find_tier tiersList complexity_score with
      | none =>
        pure
          { complexity_score, tier := .vstr "UNKNOWN", tier_name := .vstr "No Matching Tier"
            base_price := 0, estimated_hours := .vint 0, sku_code := .vnone
            additional_dept_count := .vint 0, additional_dept_price := 0
            total_org_setup_price := 0
            error := some "No tier matches the calculated score"
            formula_components := none, tier_thresholds := none }
      | some matched_tier => do
        let mtd ←
          match matched_tier with
          | .vdict d => pure d
          | _ => Except.error PyErr.attributeError
        let tier_code := dictGet mtd "code" (.vstr "UNKNOWN")
        let tier_name := dictGet mtd "name" (.vstr "Unknown")
        let base_price ← pyDecimalE (dictGet mtd "base_price" (.vint 0))
        let estimated_hours := dictGet mtd "estimated_hours" (.vint 0)
        let sku_code := dictGet mtd "sku_code" .vnone
        let additional_config := dictGet rule "additional_items" (.vdict [])
        let (additional_dept_count, additional_dept_price) ←
          if pyTruthy additional_config = false then pure (Val.vint 0, (0 : ℚ))
          else
            match additional_config with
            | .vdict ac => do
              let source_param := dictGet ac "source_parameter" (.vstr "departments")
              let first_included := dictGet ac "first_included" (.vint 1)
              let price_per_item ← pyDecimalE (dictGet ac "price_per_item" (.vint 0))
              let source_value ← paramLookup parameters source_param
              let diff ← pySub source_value first_included
              let count := pyMax0 diff
              let price ← pyDecimalMul price_per_item count
              pure (count, price)
            | _ => Except.error PyErr.attributeError
        let total_org_setup_price := base_price + additional_dept_price
        let tier_thresholds ← tiersList.mapM (fun t =>
          match t with
          | .vdict td =>
            pure (Val.vdict
              [("tier", dictGet td "code" .vnone), ("min", dictGet td "min_score" .vnone),
               ("max", dictGet td "max_score" .vnone)])
          | _ => Except.error PyErr.attributeError)
        pure
          { complexity_score, tier := tier_code, tier_name, base_price, estimated_hours
            sku_code, additional_dept_count, additional_dept_price, total_org_setup_price
            error := none
            formula_components := some (dictGet formulaDict "components" (.vlist []))
            tier_thresholds := some tier_thresholds }

/-- The result dict of `apply_discounts`. -/
structure DiscountResult where
  saas_monthly_before : ℚ
  saas_monthly_after : ℚ
  saas_year1_discount_amount : ℚ
  saas_all_years_discount_pct : ℚ
  setup_before : ℚ
  setup_after : ℚ
  setup_discount_amount : ℚ
  total_discount_year1 : ℚ
deriving Repr

/-- `QuoteCalculationService.apply_discounts(saas_monthly, setup_total,
discount_config)`.

SaaS: the all-years percentage discounts the monthly rate, then the Year-1
percentage discounts the annualised discounted rate, and the Year-1
discount amount is measured against the undiscounted annual figure.
Setup: the fixed discount is subtracted first (floored at zero), then the
percentage applies to the remainder.  A falsy config means no discounts;
non-numeric config values raise `InvalidOperation` (`Decimal(str(...))`). -/
def apply_discounts (saas_monthly setup_total : ℚ)
    (discount_config : Option (List (String × Val))) : Except PyErr DiscountResult := do
  let cfg := discount_config.getD []
  let saas_year1_pct ← pyDecimalE (dictGet cfg "saas_year1_pct" (.vint 0))
  let saas_all_years_pct ← pyDecimalE (dictGet cfg "saas_all_years_pct" (.vint 0))
  let setup_fixed ← pyDecimalE (dictGet cfg "setup_fixed" (.vint 0))
  let setup_pct ← pyDecimalE (dictGet cfg "setup_pct" (.vint 0))
  let saas_monthly_after_all_years := saas_monthly * (1 - saas_all_years_pct / 100)
  let saas_annual_year1_before := saas_monthly * 12
  let saas_annual_year1_after :=
    saas_monthly_after_all_years * 12 * (1 - saas_year1_pct / 100)
  let saas_year1_discount_amount := saas_annual_year1_before - saas_annual_year1_after
  let setup_after_fixed := max 0 (setup_total - setup_fixed)
  let setup_after := setup_after_fixed * (1 - setup_pct / 100)
  let setup_discount_amount := setup_total - setup_after
  let total_discount_year1 := saas_year1_discount_amount + setup_discount_amount
  pure
    { saas_monthly_before := saas_monthly
      saas_monthly_after := saas_monthly_after_all_years
      saas_year1_discount_amount
      saas_all_years_discount_pct := saas_all_years_pct
      setup_before := setup_total
      setup_after
      setup_discount_amount
      total_discount_year1 }

/-- One trip of the `trips` request list: the API layer validates
`days`/`people` as integers ≥ 1, and the service reads them with
`trip.get("days", 1)` / `trip.get("people", 1)`. -/
structure TripInput where
  days : Option Int
  people : Option Int
deriving Repr

/-- One row of the travel-cost breakdown. -/
structure TripDetail where
  days : Int
  nights : Int
  people : Int
  airfare_cost : ℚ
  hotel_cost : ℚ
  per_diem_cost : ℚ
  vehicle_cost : ℚ
  trip_total : ℚ
deriving Repr

/-- The result dict of `calculate_travel_cost`. -/
structure TravelResult where
  zone_name : Option String
  trips : List TripDetail
  total_travel_cost : ℚ
deriving Repr

/-- The zero-cost result returned for a falsy zone id / trip list or an
unknown zone. -/
def zeroTravel : TravelResult := ⟨none, [], 0⟩

/-- Cost breakdown of one trip against a zone's rates:
`nights = days + 1`. -/
def tripCost (zone : TravelZone) (t : TripInput) : TripDetail :=
  let days := t.days.getD 1
  let people := t.people.getD 1
  let nights := days + 1
  let airfare_cost := zone.airfareEstimate * (people : ℚ)
  let hotel_cost := zone.hotelRate * (people : ℚ) * (nights : ℚ)
  let per_diem_cost := zone.perDiemRate * (people : ℚ) * (nights : ℚ)
  let vehicle_cost := zone.vehicleRate * (nights : ℚ)
  ⟨days, nights, people, airfare_cost, hotel_cost, per_diem_cost, vehicle_cost,
   airfare_cost + hotel_cost + per_diem_cost + vehicle_cost⟩

/-- `QuoteCalculationService.calculate_travel_cost(travel_zone_id, trips)`:
`if not travel_zone_id or not trips` (a `None`/empty id or a `None`/empty
trip list) and an unknown zone id all return the zero-cost result; else
sum `tripCost` over the trips. -/
def calculate_travel_cost (svc : QuoteCalculationService)
    (travel_zone_id : Option String) (trips : Option (List TripInput)) : TravelResult :=
  let falsyId :=
    match travel_zone_id with
    | none => true
    | some s => s = ""
  let falsyTrips :=
    match trips with
    | none => true
    | some l => l.isEmpty
  if falsyId || falsyTrips then zeroTravel
  else
    match svc.db.travelZone (travel_zone_id.getD "") with
    | none => zeroTravel
    | some zone =>
      let details := (trips.getD []).map (tripCost zone)
      ⟨some zone.name, details, (details.map (·.trip_total)).sum⟩

end QuoteCalculationService

namespace QuoteCalculationService

/-- The escalation-rate resolution of `calculate_multi_year_projection`:
`STANDARD_4PCT` → 4%, `NONE` → 0%, any other name defaults to 4%. -/
def escalationRateOf (escalation_model : String) : ℚ :=
  if escalation_model = "STANDARD_4PCT" then 1 / 25
  else if escalation_model = "NONE" then 0
  else 1 / 25

/-- One year row of the projection (`travel` is always `0` here — travel is
calculated separately; the level-loaded fields exist only when level
loading ran). -/
structure ProjYear where
  year : Nat
  saas_monthly : ℚ
  saas_annual : ℚ
  setup : ℚ
  travel : ℚ
  total : ℚ
  saas_annual_level_loaded : Option ℚ
  saas_monthly_level_loaded : Option ℚ
deriving Repr

/-- The result dict of `calculate_multi_year_projection`. -/
structure ProjResult where
  years : List ProjYear
  total_contract_value : ℚ
  escalation_model : String
  level_loading_enabled : Bool
  teller_payments_discount_applied : Bool
deriving Repr

/-- The loop body for year `year` (1-based): escalation factor
`(1+rate)^(year-1)` (explicit `1` for year 1), Year-1 reapplication of
`saas_year1_pct` when the discount config is truthy, setup billed in year
1 only. -/
def projYearRow (base_monthly : ℚ) (escalation_rate : ℚ) (setup_after : ℚ)
    (discount_config : Option (List (String × Val))) (cfgTruthy : Bool) (year : Nat) :
    Except PyErr ProjYear := do
  let escalation_factor : ℚ := if year = 1 then 1 else (1 + escalation_rate) ^ (year - 1)
  let year_monthly := base_monthly * escalation_factor
  let year_annual_saas := year_monthly * 12
  let (year_monthly, year_annual_saas) ←
    if year = 1 && cfgTruthy then do
      let year1_pct ← pyDecimalE (dictGet (discount_config.getD []) "saas_year1_pct" (.vint 0))
      let ya := year_annual_saas * (1 - year1_pct / 100)
      pure (ya / 12, ya)
    else pure (year_monthly, year_annual_saas)
  let year_setup := if year = 1 then setup_after else 0
  let year_total := year_annual_saas + year_setup
  pure ⟨year, year_monthly, year_annual_saas, year_setup, 0, year_total, none, none⟩

/-- `QuoteCalculationService.calculate_multi_year_projection(saas_monthly,
setup_total, projection_years, escalation_model, level_loading_enabled,
teller_payments_enabled, discount_config)`.

Applies `apply_discounts` first, then the Teller-Payments 10% multiplier,
resolves the escalation rate by model name, builds one row per year, sums
the contract total, and (when level loading is on and the horizon exceeds
one year) attaches the level-loaded averages as parallel fields. -/
def calculate_multi_year_projection (saas_monthly setup_total : ℚ)
    (projection_years : Nat) (escalation_model : String)
    (level_loading_enabled teller_payments_enabled : Bool)
    (discount_config : Option (List (String × Val))) : Except PyErr ProjResult := do
  let discount_result ← apply_discounts saas_monthly setup_total discount_config
  let base_monthly0 := discount_result.saas_monthly_after
  let base_monthly :=
    if teller_payments_enabled then base_monthly0 * (9 / 10) else base_monthly0
  let escalation_rate := escalationRateOf escalation_model
  let cfgTruthy :=
    match discount_config with
    | some (_ :: _) => true
    | _ => false
  let years0 ← (List.range projection_years).mapM
    (fun i => projYearRow base_monthly escalation_rate discount_result.setup_after
      discount_config cfgTruthy (i + 1))
  let total_contract_value := (years0.map (·.total)).sum
  let years :=
    if level_loading_enabled && projection_years > 1 then
      let total_saas := (years0.map (·.saas_annual)).sum
      let level_annual := total_saas / (projection_years : ℚ)
      let level_monthly := level_annual / 12
      years0.map (fun y =>
        { y with
          saas_annual_level_loaded := some level_annual
          saas_monthly_level_loaded := some level_monthly })
    else years0
  pure ⟨years, total_contract_value, escalation_model, level_loading_enabled,
    teller_payments_enabled⟩

end QuoteCalculationService

open QuoteCalculationService in
/-- Closed form of `apply_discounts` on a numeric (float-valued) discount
configuration (shared helper). -/
theorem apply_discounts_float_cfg (m s y a fx p : ℚ) :
    apply_discounts m s
      (some [("saas_year1_pct", Val.vfloat y), ("saas_all_years_pct", Val.vfloat a),
             ("setup_fixed", Val.vfloat fx), ("setup_pct", Val.vfloat p)]) =
    Except.ok
      { saas_monthly_before := m
        saas_monthly_after := m * (1 - a / 100)
        saas_year1_discount_amount := m * 12 - m * (1 - a / 100) * 12 * (1 - y / 100)
        saas_all_years_discount_pct := a
        setup_before := s
        setup_after := max 0 (s - fx) * (1 - p / 100)
        setup_discount_amount := s - max 0 (s - fx) * (1 - p / 100)
        total_discount_year1 :=
          (m * 12 - m * (1 - a / 100) * 12 * (1 - y / 100)) +
            (s - max 0 (s - fx) * (1 - p / 100)) } := rfl

/-- C2: `apply_discounts` applies the SaaS all-years percentage to the
monthly rate, then the year-1 percentage to the resulting annualised
figure, reporting the year-1 discount as the delta from the undiscounted
annual figure; for setup it subtracts the fixed discount first (floored at
0) and applies the percentage to the remainder; the total year-1 discount
is the sum of the two.  Concretely, 2950.00 monthly with 10%/5% gives
2802.50 monthly, 30267.00 year-1 annual and 5133.00 discount; 100000.00
setup with 5000 fixed and 10% gives 85500.00 and 14500.00. -/
theorem C2_discount_stacking :
    (∀ m s y a fx p : ℚ,
      QuoteCalculationService.apply_discounts m s
        (some [("saas_year1_pct", Val.vfloat y), ("saas_all_years_pct", Val.vfloat a),
               ("setup_fixed", Val.vfloat fx), ("setup_pct", Val.vfloat p)]) =
      Except.ok
        { saas_monthly_before := m
          saas_monthly_after := m * (1 - a / 100)
          saas_year1_discount_amount := m * 12 - m * (1 - a / 100) * 12 * (1 - y / 100)
          saas_all_years_discount_pct := a
          setup_before := s
          setup_after := max 0 (s - fx) * (1 - p / 100)
          setup_discount_amount := s - max 0 (s - fx) * (1 - p / 100)
          total_discount_year1 :=
            (m * 12 - m * (1 - a / 100) * 12 * (1 - y / 100)) +
              (s - max 0 (s - fx) * (1 - p / 100)) }) ∧
    (QuoteCalculationService.apply_discounts 2950 0
        (some [("saas_year1_pct", Val.vint 10), ("saas_all_years_pct", Val.vint 5)])).map
        (fun r => (r.saas_monthly_after, 12 * r.saas_monthly_before - r.saas_year1_discount_amount,
                   r.saas_year1_discount_amount)) = Except.ok (2802.5, 30267, 5133) ∧
    (QuoteCalculationService.apply_discounts 0 100000
        (some [("setup_fixed", Val.vint 5000), ("setup_pct", Val.vint 10)])).map
        (fun r => (r.setup_after, r.setup_discount_amount, r.total_discount_year1)) =
      Except.ok (85500, 14500, 14500) := by
  refine ⟨fun m s y a fx p => apply_discounts_float_cfg m s y a fx p, ?_, ?_⟩ <;>
    simp [QuoteCalculationService.apply_discounts, pyDecimalE, pyDecimal?, dictGet, lookupKey,
      Option.getD, Except.map, Except.bind, Except.pure, bind, pure, max_def] <;>
    norm_num

/-- C10: for every setup total `s ≥ 0` and numeric discount configuration
with `0 ≤ setup_pct ≤ 100`, the fixed-discount step is clamped at zero, so
`setup_after` is never negative, and an over-large fixed discount yields
`setup_after = 0` with the whole setup total reported as discount. -/
theorem C10_setup_floor (m s y a fx p : ℚ) (hs : 0 ≤ s) (hp0 : 0 ≤ p) (hp1 : p ≤ 100) :
    ∃ r, QuoteCalculationService.apply_discounts m s
        (some [("saas_year1_pct", Val.vfloat y), ("saas_all_years_pct", Val.vfloat a),
               ("setup_fixed", Val.vfloat fx), ("setup_pct", Val.vfloat p)]) = Except.ok r ∧
      r.setup_after = max 0 (s - fx) * (1 - p / 100) ∧
      0 ≤ r.setup_after ∧
      (fx ≥ s → r.setup_after = 0 ∧ r.setup_discount_amount = s) := by
  refine ⟨_, apply_discounts_float_cfg m s y a fx p, rfl, ?_, ?_⟩
  · have h1 : (0 : ℚ) ≤ max 0 (s - fx) := le_max_left _ _
    have h2 : (0 : ℚ) ≤ 1 - p / 100 := by linarith
    exact mul_nonneg h1 h2
  · intro hle
    have hm : max (0 : ℚ) (s - fx) = 0 := max_eq_left (by linarith)
    constructor
    · show max (0 : ℚ) (s - fx) * (1 - p / 100) = 0
      rw [hm, zero_mul]
    · show s - max (0 : ℚ) (s - fx) * (1 - p / 100) = s
      rw [hm, zero_mul, sub_zero]

/-- Witness for C10 at `m=0, s=100000, fx=5000, p=10`. -/
theorem C10_setup_floor_witness :
    ∃ r, QuoteCalculationService.apply_discounts 0 100000
        (some [("saas_year1_pct", Val.vfloat 0), ("saas_all_years_pct", Val.vfloat 0),
               ("setup_fixed", Val.vfloat 5000), ("setup_pct", Val.vfloat 10)]) = Except.ok r ∧
      r.setup_after = max 0 (100000 - 5000) * (1 - 10 / 100) ∧
      0 ≤ r.setup_after ∧
      ((5000 : ℚ) ≥ 100000 → r.setup_after = 0 ∧ r.setup_discount_amount = 100000) :=
  C10_setup_floor 0 100000 0 0 5000 10 (by norm_num) (by norm_num) (by norm_num)

/-- C6: with a current pricing version but a missing/inactive
`COMPLEXITY_FACTOR` rule, `calculate_complexity_factor` returns (does not
raise) the structurally complete degraded result — score 0, tier
"UNKNOWN", zero prices, non-empty error string; with no current pricing
version (and none pinned — `QuoteCalculationService` never pins one), the
`ValueError` from the configuration accessor propagates. -/
theorem C6_complexity_error_handling :
    (∀ (db : PricingDB) (params : List (String × Val)) (vid : String),
      db.currentVersionId = some vid →
      db.activeRule vid "COMPLEXITY_FACTOR" = none →
      QuoteCalculationService.calculate_complexity_factor ⟨db⟩ params =
        Except.ok
          { complexity_score := 0, tier := .vstr "UNKNOWN", tier_name := .vstr "Not Configured"
            base_price := 0, estimated_hours := .vint 0, sku_code := .vnone
            additional_dept_count := .vint 0, additional_dept_price := 0
            total_org_setup_price := 0
            error := some "COMPLEXITY_FACTOR rule not configured"
            formula_components := none, tier_thresholds := none } ∧
      "COMPLEXITY_FACTOR rule not configured" ≠ "") ∧
    (∀ (db : PricingDB) (params : List (String × Val)),
      db.currentVersionId = none →
      QuoteCalculationService.calculate_complexity_factor ⟨db⟩ params =
        Except.error (.valueError "No current pricing version found")) := by
  constructor
  · intro db params vid hcur hrule
    refine ⟨?_, by decide⟩
    simp [QuoteCalculationService.calculate_complexity_factor,
      QuoteCalculationService._get_rule, QuoteCalculationService.config,
      ConfigurationService.get_pricing_version_id, hcur, hrule, Except.bind, Except.pure,
      bind, pure]
  · intro db params hcur
    simp [QuoteCalculationService.calculate_complexity_factor,
      QuoteCalculationService._get_rule, QuoteCalculationService.config,
      ConfigurationService.get_pricing_version_id, hcur, Except.bind, Except.pure, bind, pure]

/-- Witness for C6 at a one-row database with a current version and no
rules, and at an empty database. -/
theorem C6_complexity_error_handling_witness :
    (QuoteCalculationService.calculate_complexity_factor
        ⟨⟨some "V1", fun _ _ => none, fun _ => none⟩⟩ [] =
      Except.ok
        { complexity_score := 0, tier := .vstr "UNKNOWN", tier_name := .vstr "Not Configured"
          base_price := 0, estimated_hours := .vint 0, sku_code := .vnone
          additional_dept_count := .vint 0, additional_dept_price := 0
          total_org_setup_price := 0
          error := some "COMPLEXITY_FACTOR rule not configured"
          formula_components := none, tier_thresholds := none } ∧
      "COMPLEXITY_FACTOR rule not configured" ≠ "") ∧
    QuoteCalculationService.calculate_complexity_factor
        ⟨⟨none, fun _ _ => none, fun _ => none⟩⟩ [] =
      Except.error (.valueError "No current pricing version found") :=
  ⟨(C6_complexity_error_handling.1 ⟨some "V1", fun _ _ => none, fun _ => none⟩ [] "V1"
      rfl rfl),
   C6_complexity_error_handling.2 ⟨none, fun _ _ => none, fun _ => none⟩ [] rfl⟩

/-- C5: `calculate_travel_cost` computes, per trip `{days, people}`,
`nights = days + 1` and `tripCost = airfare×people + hotel×people×nights +
perDiem×people×nights + vehicle×nights`, summing over all trips; a
missing/empty/unknown zone id or an absent/empty trip list yields the
zero-cost result with no error; the (750, 180, 60, 125) zone with one
2-day 2-person trip totals 3315.00. -/
theorem C5_travel_cost :
    (∀ (svc : QuoteCalculationService) (zid : String) (z : TravelZone)
        (ts : List (Int × Int)),
      svc.db.travelZone zid = some z → zid ≠ "" → ts ≠ [] →
      QuoteCalculationService.calculate_travel_cost svc (some zid)
          (some (ts.map (fun dp => ⟨some dp.1, some dp.2⟩))) =
        { zone_name := some z.name
          trips := ts.map (fun dp =>
            { days := dp.1, nights := dp.1 + 1, people := dp.2
              airfare_cost := z.airfareEstimate * (dp.2 : ℚ)
              hotel_cost := z.hotelRate * (dp.2 : ℚ) * ((dp.1 + 1 : Int) : ℚ)
              per_diem_cost := z.perDiemRate * (dp.2 : ℚ) * ((dp.1 + 1 : Int) : ℚ)
              vehicle_cost := z.vehicleRate * ((dp.1 + 1 : Int) : ℚ)
              trip_total := z.airfareEstimate * (dp.2 : ℚ) +
                z.hotelRate * (dp.2 : ℚ) * ((dp.1 + 1 : Int) : ℚ) +
                z.perDiemRate * (dp.2 : ℚ) * ((dp.1 + 1 : Int) : ℚ) +
                z.vehicleRate * ((dp.1 + 1 : Int) : ℚ) })
          total_travel_cost := (ts.map (fun dp =>
            z.airfareEstimate * (dp.2 : ℚ) +
            z.hotelRate * (dp.2 : ℚ) * ((dp.1 + 1 : Int) : ℚ) +
            z.perDiemRate * (dp.2 : ℚ) * ((dp.1 + 1 : Int) : ℚ) +
            z.vehicleRate * ((dp.1 + 1 : Int) : ℚ))).sum }) ∧
    (∀ (svc : QuoteCalculationService) (trips : Option (List QuoteCalculationService.TripInput)),
      QuoteCalculationService.calculate_travel_cost svc none trips =
        QuoteCalculationService.zeroTravel ∧
      QuoteCalculationService.calculate_travel_cost svc (some "") trips =
        QuoteCalculationService.zeroTravel) ∧
    (∀ (svc : QuoteCalculationService) (zid : String)
        (trips : Option (List QuoteCalculationService.TripInput)),
      svc.db.travelZone zid = none →
      QuoteCalculationService.calculate_travel_cost svc (some zid) trips =
        QuoteCalculationService.zeroTravel) ∧
    (∀ (svc : QuoteCalculationService) (tz : Option String),
      QuoteCalculationService.calculate_travel_cost svc tz none =
        QuoteCalculationService.zeroTravel ∧
      QuoteCalculationService.calculate_travel_cost svc tz (some []) =
        QuoteCalculationService.zeroTravel) ∧
    (QuoteCalculationService.calculate_travel_cost
        ⟨⟨some "V1", fun _ _ => none,
          fun i => if i = "Z" then some ⟨"Zone A", 750, 180, 60, 125⟩ else none⟩⟩
        (some "Z") (some [⟨some 2, some 2⟩])).total_travel_cost = 3315 := by
  refine ⟨?_, ?_, ?_, ?_, ?_⟩
  · intro svc zid z ts hz hzid hts
    cases ts with
    | nil => exact absurd rfl hts
    | cons hd tl =>
      simp only [QuoteCalculationService.calculate_travel_cost, List.map_cons,
        List.isEmpty_cons]
      rw [decide_eq_false hzid]
      simp only [Bool.or_false, Bool.false_eq_true, if_false, Option.getD, hz,
        List.map_map, List.map_cons]
      rfl
  · intro svc trips
    constructor <;> simp [QuoteCalculationService.calculate_travel_cost]
  · intro svc zid trips hz
    by_cases h1 : zid = ""
    · subst h1; simp [QuoteCalculationService.calculate_travel_cost]
    · simp [QuoteCalculationService.calculate_travel_cost, h1, hz]
  · intro svc tz
    constructor <;> simp [QuoteCalculationService.calculate_travel_cost]
  · simp [QuoteCalculationService.calculate_travel_cost, QuoteCalculationService.tripCost]
    norm_num

/-- Witness for C5's quantified parts at a concrete database, zone and
trip list. -/
theorem C5_travel_cost_witness :
    QuoteCalculationService.calculate_travel_cost
        ⟨⟨some "V1", fun _ _ => none,
          fun i => if i = "Z" then some ⟨"Zone A", 750, 180, 60, 125⟩ else none⟩⟩
        (some "Z") (some ([((2 : Int), (2 : Int))].map (fun dp => ⟨some dp.1, some dp.2⟩))) =
      { zone_name := some "Zone A"
        trips := [((2 : Int), (2 : Int))].map (fun dp =>
          { days := dp.1, nights := dp.1 + 1, people := dp.2
            airfare_cost := (750 : ℚ) * (dp.2 : ℚ)
            hotel_cost := (180 : ℚ) * (dp.2 : ℚ) * ((dp.1 + 1 : Int) : ℚ)
            per_diem_cost := (60 : ℚ) * (dp.2 : ℚ) * ((dp.1 + 1 : Int) : ℚ)
            vehicle_cost := (125 : ℚ) * ((dp.1 + 1 : Int) : ℚ)
            trip_total := (750 : ℚ) * (dp.2 : ℚ) +
              (180 : ℚ) * (dp.2 : ℚ) * ((dp.1 + 1 : Int) : ℚ) +
              (60 : ℚ) * (dp.2 : ℚ) * ((dp.1 + 1 : Int) : ℚ) +
              (125 : ℚ) * ((dp.1 + 1 : Int) : ℚ) })
        total_travel_cost := ([((2 : Int), (2 : Int))].map (fun dp =>
          (750 : ℚ) * (dp.2 : ℚ) +
          (180 : ℚ) * (dp.2 : ℚ) * ((dp.1 + 1 : Int) : ℚ) +
          (60 : ℚ) * (dp.2 : ℚ) * ((dp.1 + 1 : Int) : ℚ) +
          (125 : ℚ) * ((dp.1 + 1 : Int) : ℚ))).sum } :=
  C5_travel_cost.1
    ⟨⟨some "V1", fun _ _ => none,
      fun i => if i = "Z" then some ⟨"Zone A", 750, 180, 60, 125⟩ else none⟩⟩
    "Z" ⟨"Zone A", 750, 180, 60, 125⟩ [(2, 2)] (by simp) (by simp) (by simp)

/-- C7: a condition dict whose `type` tag is none of the supported variants
and which carries no `AND`/`OR` operator evaluates to `False` without
raising, and a formula dict whose `type` tag is unsupported prices to `0` —
unknown tags from configuration fail closed. -/
theorem C7_unknown_tags_fail_closed :
    (∀ (c context : List (String × Val)),
      (∀ s ∈ (["always", "never", "parameter_equals", "parameter_not_equals",
          "parameter_in", "parameter_greater_than", "parameter_less_than",
          "parameter_between", "parameter_exists"] : List String),
        isStr (dictGet c "type" .vnone) s = false) →
      isStr (dictGet c "operator" .vnone) "AND" = false →
      isStr (dictGet c "operator" .vnone) "OR" = false →
      RuleEngine.evaluate_condition (.vdict c) context = .ok false) ∧
    (∀ (f context : List (String × Val)),
      (∀ s ∈ (["fixed", "quantity_based", "tiered", "calculated"] : List String),
        isStr (dictGet f "type" .vnone) s = false) →
      RuleEngine.calculate_price f context = .ok 0) := by
  constructor
  · intro c context hty hop1 hop2
    have h1 := hty "always" (by simp)
    have h2 := hty "never" (by simp)
    have h3 := hty "parameter_equals" (by simp)
    have h4 := hty "parameter_not_equals" (by simp)
    have h5 := hty "parameter_in" (by simp)
    have h6 := hty "parameter_greater_than" (by simp)
    have h7 := hty "parameter_less_than" (by simp)
    have h8 := hty "parameter_between" (by simp)
    have h9 := hty "parameter_exists" (by simp)
    rw [RuleEngine.evaluate_condition]
    simp only [RuleEngine.evalCondFuel, h1, h2, h3, h4, h5, h6, h7, h8, h9, hop1, hop2,
      Bool.false_eq_true, if_false, Bool.or_self, Bool.or_false, Bool.false_or]
  · intro f context hty
    have h1 := hty "fixed" (by simp)
    have h2 := hty "quantity_based" (by simp)
    have h3 := hty "tiered" (by simp)
    have h4 := hty "calculated" (by simp)
    simp only [RuleEngine.calculate_price, h1, h2, h3, h4, Bool.false_eq_true, if_false]

/-- Witness for C7 at a condition/formula whose `type` is the unknown tag
`"mystery"` (with an unrelated `operator` value present). -/
theorem C7_unknown_tags_fail_closed_witness :
    RuleEngine.evaluate_condition
        (.vdict [("type", .vstr "mystery"), ("operator", .vstr "XOR")]) [] = .ok false ∧
    RuleEngine.calculate_price [("type", .vstr "mystery")] [] = .ok 0 :=
  ⟨C7_unknown_tags_fail_closed.1 [("type", .vstr "mystery"), ("operator", .vstr "XOR")] []
      (by intro s hs; fin_cases hs <;> rfl) rfl rfl,
   C7_unknown_tags_fail_closed.2 [("type", .vstr "mystery")] []
      (by intro s hs; fin_cases hs <;> rfl)⟩

/-- C1 counterexample: the `quantity_based` branch has no `max(0, ·)`
clamp — price-per-unit 60 with context quantity −2 prices to −120, where
the claim demands `60 × max(0, −2) = 0`. -/
theorem C1_counterexample :
    RuleEngine.calculate_price
        [("type", .vstr "quantity_based"), ("pricePerUnit", .vint 60),
         ("quantityParameter", .vstr "q")] [("q", .vint (-2))] = .ok (-120) ∧
    (60 : ℚ) * max 0 ((-2 : ℚ)) = 0 ∧ ((-120 : ℚ)) ≠ 0 := by
  refine ⟨?_, by norm_num, by norm_num⟩
  simp [RuleEngine.calculate_price, RuleEngine.getNestedOfVal, RuleEngine._get_nested_value,
    RuleEngine.splitDots, splitOnChar, getNestedKeys, lookupKey, dictGet, pyTruthy, pyDecimal?,
    isStr, Except.bind, Except.pure, bind, pure]
  norm_num

/-- C1 (amended): for a `quantity_based` formula with numeric unit price
`u` and a string quantity path, `calculate_price` returns `u × q`
UNCLAMPED (negative for a negative context quantity), returns `0` when the
path does not resolve, and RAISES `decimal.InvalidOperation` (which the
branch's `except (ValueError, TypeError)` does not catch) when the
resolved quantity is not decimal-parseable. -/
theorem C1_quantity_based_price (f ctx : List (String × Val)) (u : ℚ) (s : String)
    (hty : dictGet f "type" .vnone = .vstr "quantity_based")
    (hppu : pyDecimal? (dictGet f "pricePerUnit" (.vint 0)) = some u)
    (hqp : dictGet f "quantityParameter" (.vstr "") = .vstr s) :
    RuleEngine.calculate_price f ctx =
      match RuleEngine._get_nested_value ctx s with
      | none => Except.ok 0
      | some v =>
        match pyDecimal? v with
        | some q => Except.ok (u * q)
        | none => Except.error PyErr.invalidOperation := by
  simp only [RuleEngine.calculate_price, hty, hppu, hqp, RuleEngine.getNestedOfVal]
  by_cases hs : s = ""
  · subst hs
    simp [RuleEngine._get_nested_value, pyTruthy, isStr, Except.bind, Except.pure, bind, pure,
      pyDecimal?]
  · have hpt : pyTruthy (.vstr s) = true := by simp [pyTruthy, hs]
    simp only [isStr, hpt, Bool.true_eq_false, if_false, Except.bind, bind, pure]
    cases h : RuleEngine._get_nested_value ctx s with
    | none => simp [h, Except.pure, pyDecimal?]
    | some v => simp [h, Except.pure]

/-- Witness for C1's amended theorem at the counterexample's formula and a
context carrying quantity 5. -/
theorem C1_quantity_based_price_witness :
    RuleEngine.calculate_price
        [("type", .vstr "quantity_based"), ("pricePerUnit", .vint 60),
         ("quantityParameter", .vstr "q")] [("q", .vint 5)] =
      match RuleEngine._get_nested_value [("q", .vint 5)] "q" with
      | none => Except.ok 0
      | some v =>
        match pyDecimal? v with
        | some q => Except.ok (60 * q)
        | none => Except.error PyErr.invalidOperation :=
  C1_quantity_based_price
    [("type", .vstr "quantity_based"), ("pricePerUnit", .vint 60),
     ("quantityParameter", .vstr "q")] [("q", .vint 5)] 60 "q"
    (by simp [dictGet, lookupKey]) (by simp [dictGet, lookupKey, pyDecimal?])
    (by simp [dictGet, lookupKey])

/-- C8 counterexample: `parameter_equals` with expected `int` 3 evaluates
to `True` against a context `float` 3.0 — two values of different types
(distinct `Val` constructors) that Python `==` nevertheless equates. -/
theorem C8_counterexample :
    RuleEngine.evaluate_condition
        (.vdict [("type", .vstr "parameter_equals"), ("parameter", .vstr "x"),
                 ("value", .vint 3)]) [("x", .vfloat 3)] = .ok true ∧
    Val.vint 3 ≠ Val.vfloat 3 := by
  constructor
  · simp [RuleEngine.evaluate_condition, RuleEngine.evalCondFuel, RuleEngine.cond_parameter_equals,
      RuleEngine.getNestedOfVal, RuleEngine._get_nested_value, RuleEngine.splitDots, splitOnChar,
      getNestedKeys, lookupKey, dictGet, pyTruthy, isStr, pyEq, pyNum?, Except.bind, Except.pure,
      bind, pure, RuleEngine.condSize, RuleEngine.condSizeDict, RuleEngine.condSizeList]
  · exact fun h => Val.noConfusion h

/-- C8 (amended): `parameter_equals`/`parameter_not_equals` compare the
raw resolved value against the expected value with Python `==` (`pyEq`):
strings never equal numbers (so `"3" ≠ 3` as claimed), but numeric values
of different types compare by numeric value, so `3 == 3.0` and
`True == 1`. -/
theorem C8_raw_equality (c ctx : List (String × Val)) (p : String) (v : Val)
    (hp : dictGet c "parameter" (.vstr "") = .vstr p)
    (hv : RuleEngine._get_nested_value ctx p = some v) :
    ((dictGet c "type" .vnone = .vstr "parameter_equals" →
      RuleEngine.evaluate_condition (.vdict c) ctx =
        .ok (pyEq v (dictGet c "value" .vnone))) ∧
     (dictGet c "type" .vnone = .vstr "parameter_not_equals" →
      RuleEngine.evaluate_condition (.vdict c) ctx =
        .ok (!pyEq v (dictGet c "value" .vnone)))) ∧
    (∀ (t : String) (n : Int), pyEq (.vstr t) (.vint n) = false) ∧
    (∀ (t : String) (q : ℚ), pyEq (.vstr t) (.vfloat q) = false) ∧
    pyEq (.vstr "3") (.vint 3) = false ∧
    pyEq (.vint 3) (.vfloat 3) = true ∧
    pyEq (.vbool true) (.vint 1) = true := by
  have hp' : p ≠ "" := by
    intro h
    subst h
    simp [RuleEngine._get_nested_value] at hv
  have hpt : pyTruthy (.vstr p) = true := by simp [pyTruthy, hp']
  refine ⟨⟨?_, ?_⟩, ?_, ?_, by simp [pyEq, pyNum?], by simp [pyEq, pyNum?], by simp [pyEq, pyNum?]⟩
  · intro hty
    simp [RuleEngine.evaluate_condition, RuleEngine.evalCondFuel, hty, isStr,
      RuleEngine.cond_parameter_equals, hp, RuleEngine.getNestedOfVal, hpt, hv,
      Except.bind, Except.pure, bind, pure]
  · intro hty
    simp [RuleEngine.evaluate_condition, RuleEngine.evalCondFuel, hty, isStr,
      RuleEngine.cond_parameter_not_equals, hp, RuleEngine.getNestedOfVal, hpt, hv,
      Except.bind, Except.pure, bind, pure]
  · intro t n
    simp [pyEq, pyNum?]
  · intro t q
    simp [pyEq, pyNum?]

/-- Witness for C8's amended theorem at the counterexample's condition and
context. -/
theorem C8_raw_equality_witness :
    ((dictGet [("type", Val.vstr "parameter_equals"), ("parameter", Val.vstr "x"),
        ("value", Val.vint 3)] "type" .vnone = .vstr "parameter_equals" →
      RuleEngine.evaluate_condition
          (.vdict [("type", .vstr "parameter_equals"), ("parameter", .vstr "x"),
                   ("value", .vint 3)]) [("x", .vfloat 3)] =
        .ok (pyEq (.vfloat 3)
          (dictGet [("type", Val.vstr "parameter_equals"), ("parameter", Val.vstr "x"),
            ("value", Val.vint 3)] "value" .vnone))) ∧
     (dictGet [("type", Val.vstr "parameter_equals"), ("parameter", Val.vstr "x"),
        ("value", Val.vint 3)] "type" .vnone = .vstr "parameter_not_equals" →
      RuleEngine.evaluate_condition
          (.vdict [("type", .vstr "parameter_equals"), ("parameter", .vstr "x"),
                   ("value", .vint 3)]) [("x", .vfloat 3)] =
        .ok (!pyEq (.vfloat 3)
          (dictGet [("type", Val.vstr "parameter_equals"), ("parameter", Val.vstr "x"),
            ("value", Val.vint 3)] "value" .vnone)))) ∧
    (∀ (t : String) (n : Int), pyEq (.vstr t) (.vint n) = false) ∧
    (∀ (t : String) (q : ℚ), pyEq (.vstr t) (.vfloat q) = false) ∧
    pyEq (.vstr "3") (.vint 3) = false ∧
    pyEq (.vint 3) (.vfloat 3) = true ∧
    pyEq (.vbool true) (.vint 1) = true :=
  C8_raw_equality
    [("type", .vstr "parameter_equals"), ("parameter", .vstr "x"), ("value", .vint 3)]
    [("x", .vfloat 3)] "x" (.vfloat 3)
    (by simp [dictGet, lookupKey])
    (by simp [RuleEngine._get_nested_value, RuleEngine.splitDots, splitOnChar, getNestedKeys,
      lookupKey])

/-- C9 counterexample: a matching rule with the truthy literal quantity
`0.5` returns a selected-item record with quantity `int(0.5) = 0` — a
returned quantity of 0 IS reachable from a literal quantity. -/
theorem C9_counterexample :
    (RuleEngine.evaluate_sku_selection_rule
        [("condition", .vdict [("type", .vstr "always")]), ("skuCode", .vstr "X"),
         ("quantity", .vfloat (1/2))] []).map (Option.map (fun r => r.quantity)) =
      .ok (some 0) ∧ pyTruthy (.vfloat (1/2)) = true := by
  constructor
  · simp [RuleEngine.evaluate_sku_selection_rule, RuleEngine.evaluate_condition,
      RuleEngine.evalCondFuel, dictGet, lookupKey, isStr, pyTruthy, pyInt?,
      RuleEngine.condSize, RuleEngine.condSizeDict, RuleEngine.condSizeList,
      Except.bind, Except.pure, Except.map, bind, pure]
    norm_num [Int.tdiv]
  · norm_num [pyTruthy]

/-- C9 (amended): when the rule's condition holds, a falsy literal
quantity `0` coerces to the default 1 (so the literal `0` cannot produce
quantity 0), but a truthy non-integral `float` literal truncates via
`int(...)`, so e.g. `0.5` does return quantity 0. -/
theorem C9_literal_quantity (rule ctx : List (String × Val))
    (hcond : RuleEngine.evaluate_condition (dictGet rule "condition" (.vdict [])) ctx =
      .ok true) :
    (dictGet rule "quantity" (.vint 1) = .vint 0 →
      RuleEngine.evaluate_sku_selection_rule rule ctx = .ok (some
        { sku_code := dictGet rule "skuCode" .vnone, quantity := 1
          reason := dictGet rule "reason" (.vstr "")
          metadata := dictGet rule "metadata" (.vdict []) })) ∧
    (∀ qq : ℚ, dictGet rule "quantity" (.vint 1) = .vfloat qq → qq ≠ 0 →
      RuleEngine.evaluate_sku_selection_rule rule ctx = .ok (some
        { sku_code := dictGet rule "skuCode" .vnone, quantity := qq.num.tdiv (qq.den : Int)
          reason := dictGet rule "reason" (.vstr "")
          metadata := dictGet rule "metadata" (.vdict []) })) := by
  constructor
  · intro hq
    simp [RuleEngine.evaluate_sku_selection_rule, hcond, hq, pyTruthy, Except.bind,
      Except.pure, bind, pure]
  · intro qq hq hqq
    simp [RuleEngine.evaluate_sku_selection_rule, hcond, hq, pyTruthy, hqq, pyInt?,
      Except.bind, Except.pure, bind, pure]

/-- Witness for C9's amended theorem: an `always` rule with literal
quantity 0 selects quantity 1. -/
theorem C9_literal_quantity_witness :
    RuleEngine.evaluate_sku_selection_rule
        [("condition", .vdict [("type", .vstr "always")]), ("skuCode", .vstr "X-SETUP"),
         ("quantity", .vint 0)] [] = .ok (some
      { sku_code := dictGet [("condition", Val.vdict [("type", Val.vstr "always")]),
          ("skuCode", Val.vstr "X-SETUP"), ("quantity", Val.vint 0)] "skuCode" .vnone
        quantity := 1
        reason := dictGet [("condition", Val.vdict [("type", Val.vstr "always")]),
          ("skuCode", Val.vstr "X-SETUP"), ("quantity", Val.vint 0)] "reason" (.vstr "")
        metadata := dictGet [("condition", Val.vdict [("type", Val.vstr "always")]),
          ("skuCode", Val.vstr "X-SETUP"), ("quantity", Val.vint 0)] "metadata" (.vdict []) }) :=
  (C9_literal_quantity
    [("condition", .vdict [("type", .vstr "always")]), ("skuCode", .vstr "X-SETUP"),
     ("quantity", .vint 0)] []
    (by simp [RuleEngine.evaluate_condition, RuleEngine.evalCondFuel, dictGet, lookupKey,
      isStr, RuleEngine.condSize, RuleEngine.condSizeDict, RuleEngine.condSizeList])).1
    (by simp [dictGet, lookupKey])

/-- `buildEvalContext` succeeds whenever every declared variable path is a
string or falsy (shared helper for the `calculated` branch's totality). -/
theorem buildEvalContext_ok (vars ctx : List (String × Val))
    (h : ∀ nv ∈ vars, (∃ t, nv.2 = Val.vstr t) ∨ pyTruthy nv.2 = false) :
    ∃ ec, RuleEngine.buildEvalContext vars ctx = .ok ec := by
  induction vars with
  | nil => exact ⟨[], rfl⟩
  | cons nv rest ih =>
    obtain ⟨ec, hec⟩ := ih (fun x hx => h x (List.mem_cons_of_mem _ hx))
    have hnv := h nv (List.mem_cons_self _ _)
    have hget : ∃ o, RuleEngine.getNestedOfVal ctx nv.2 = .ok o := by
      rcases hnv with ⟨t, ht⟩ | hf
      · rw [ht]
        by_cases h0 : t = ""
        · subst h0; exact ⟨none, rfl⟩
        · exact ⟨RuleEngine._get_nested_value ctx t,
            by simp [RuleEngine.getNestedOfVal, pyTruthy, h0]⟩
      · exact ⟨none, by simp [RuleEngine.getNestedOfVal, hf]⟩
    obtain ⟨o, ho⟩ := hget
    cases o with
    | none =>
      refine ⟨(nv.1, 0) :: ec, ?_⟩
      simp [RuleEngine.buildEvalContext, ho, hec, Except.bind, Except.pure, bind, pure]
    | some x =>
      refine ⟨(nv.1, (pyFloat? x).getD 0) :: ec, ?_⟩
      simp [RuleEngine.buildEvalContext, ho, hec, Except.bind, Except.pure, bind, pure]

/-- C3 counterexample: `rule_engine`'s `calculated` branch does NOT
restrict the character set — the expression `"1e2"` contains `e`, which is
outside the safe set, yet `calculate_price` evaluates it to 100 instead of
leaving it unevaluated (which would yield 0). -/
theorem C3_counterexample :
    RuleEngine.calculate_price
        [("type", .vstr "calculated"), ("formula", .vstr "1e2"), ("variables", .vdict [])]
        [] = .ok 100 ∧
    QuoteCalculationService.isSafeExpr "1e2" = false ∧ (100 : ℚ) ≠ 0 := by
  refine ⟨?_, by decide, by norm_num⟩
  simp [RuleEngine.calculate_price, RuleEngine.buildEvalContext, RuleEngine.substituteVars,
    dictGet, lookupKey, isStr, pyEvalArith, tokenize, tokenizeAux, scanNumber, parsePyNumber?,
    parseMantissa?, parseNatDigits?, splitSign, trimSpaces, splitOnChar, parseExpr, parseTerm,
    parseUnary, parsePower, parsePostfix, parseCalls, parseAtom, parseExprRest, parseTermRest,
    evalAst, evalOutcomeOrZero, pyReplace, replaceAllFuel,
    Except.bind, Except.pure, bind, pure, List.mapM_nil]
  norm_num

/-- C3 (amended): only `_evaluate_formula`'s `expression` type filters on
the safe character set — an unsafe substituted string yields 0 — but the
filter does not make the branch total: the filter-passing expressions `"()"`
and `"5()"` raise uncaught `decimal.InvalidOperation` (from
`Decimal(str(()))`) and `TypeError` (from `eval`) past the branch's
`except (ValueError, SyntaxError, ZeroDivisionError)`; `rule_engine`'s
`calculated` type substitutes each declared variable (0 when missing or
non-numeric) and evaluates WITHOUT any character restriction, catching
every evaluation exception (`except Exception`) as 0 — including the same
two expressions and division by zero, shown concretely — and never raises
when the declared variable paths are strings (or falsy); `_evaluate_formula`
does catch division by zero (`"10/0"` yields 0 there too). -/
theorem C3_restricted_evaluation :
    (∀ (config params : List (String × Val)) (e0 : String),
      dictGet config "type" (.vstr "weighted_sum") = .vstr "expression" →
      dictGet config "expression" (.vstr "0") = .vstr e0 →
      QuoteCalculationService.isSafeExpr
        (QuoteCalculationService.substPlaceholders e0 params) = false →
      QuoteCalculationService._evaluate_formula config params = .ok 0) ∧
    (QuoteCalculationService.isSafeExpr "()" = true ∧
     QuoteCalculationService._evaluate_formula
        [("type", .vstr "expression"), ("expression", .vstr "()")] []
        = .error .invalidOperation ∧
     QuoteCalculationService.isSafeExpr "5()" = true ∧
     QuoteCalculationService._evaluate_formula
        [("type", .vstr "expression"), ("expression", .vstr "5()")] []
        = .error .typeError ∧
     RuleEngine.calculate_price
        [("type", .vstr "calculated"), ("formula", .vstr "()"), ("variables", .vdict [])]
        [] = .ok 0 ∧
     RuleEngine.calculate_price
        [("type", .vstr "calculated"), ("formula", .vstr "5()"), ("variables", .vdict [])]
        [] = .ok 0) ∧
    (∀ (f ctx vars : List (String × Val)),
      dictGet f "type" .vnone = .vstr "calculated" →
      dictGet f "variables" (.vdict []) = .vdict vars →
      (∀ nv ∈ vars, (∃ t, nv.2 = Val.vstr t) ∨ pyTruthy nv.2 = false) →
      ∃ q, RuleEngine.calculate_price f ctx = .ok q) ∧
    RuleEngine.calculate_price
        [("type", .vstr "calculated"), ("formula", .vstr "10/0"), ("variables", .vdict [])]
        [] = .ok 0 ∧
    QuoteCalculationService._evaluate_formula
        [("type", .vstr "expression"), ("expression", .vstr "10/0")] [] = .ok 0 := by
  refine ⟨?_, ⟨by decide, ?_, by decide, ?_, ?_, ?_⟩, ?_, ?_, ?_⟩
  · intro config params e0 hty hexpr hsafe
    simp [QuoteCalculationService._evaluate_formula, hty, hexpr, hsafe, isStr]
  · simp [QuoteCalculationService._evaluate_formula, QuoteCalculationService.substPlaceholders,
      QuoteCalculationService.isSafeExpr, QuoteCalculationService.safeChars,
      dictGet, lookupKey, isStr, pyEvalArith, tokenize, tokenizeAux, scanNumber, parsePyNumber?,
      parseMantissa?, parseNatDigits?, splitSign, trimSpaces, splitOnChar, parseExpr, parseTerm,
      parseUnary, parsePower, parsePostfix, parseCalls, parseAtom, parseExprRest, parseTermRest,
      evalAst, Except.bind, Except.pure, bind, pure]
  · simp [QuoteCalculationService._evaluate_formula, QuoteCalculationService.substPlaceholders,
      QuoteCalculationService.isSafeExpr, QuoteCalculationService.safeChars,
      dictGet, lookupKey, isStr, pyEvalArith, tokenize, tokenizeAux, scanNumber, parsePyNumber?,
      parseMantissa?, parseNatDigits?, splitSign, trimSpaces, splitOnChar, parseExpr, parseTerm,
      parseUnary, parsePower, parsePostfix, parseCalls, parseAtom, parseExprRest, parseTermRest,
      evalAst, Except.bind, Except.pure, bind, pure]
  · simp [RuleEngine.calculate_price, RuleEngine.buildEvalContext, RuleEngine.substituteVars,
      dictGet, lookupKey, isStr, pyEvalArith, tokenize, tokenizeAux, scanNumber, parsePyNumber?,
      parseMantissa?, parseNatDigits?, splitSign, trimSpaces, splitOnChar, parseExpr, parseTerm,
      parseUnary, parsePower, parsePostfix, parseCalls, parseAtom, parseExprRest, parseTermRest,
      evalAst, evalOutcomeOrZero, pyReplace, replaceAllFuel,
      Except.bind, Except.pure, bind, pure]
  · simp [RuleEngine.calculate_price, RuleEngine.buildEvalContext, RuleEngine.substituteVars,
      dictGet, lookupKey, isStr, pyEvalArith, tokenize, tokenizeAux, scanNumber, parsePyNumber?,
      parseMantissa?, parseNatDigits?, splitSign, trimSpaces, splitOnChar, parseExpr, parseTerm,
      parseUnary, parsePower, parsePostfix, parseCalls, parseAtom, parseExprRest, parseTermRest,
      evalAst, evalOutcomeOrZero, pyReplace, replaceAllFuel,
      Except.bind, Except.pure, bind, pure]
  · intro f ctx vars hty hvar hvars
    obtain ⟨ec, hec⟩ := buildEvalContext_ok vars ctx hvars
    cases hf : dictGet f "formula" (.vstr "")
    case vstr e =>
      exact ⟨evalOutcomeOrZero (pyEvalArith (RuleEngine.substituteVars e ec)),
        by simp [RuleEngine.calculate_price, hty, hvar, isStr, hec, hf,
          Except.bind, bind, pure, Except.pure]⟩
    all_goals exact ⟨0, by simp [RuleEngine.calculate_price, hty, hvar, isStr, hec, hf,
      Except.bind, bind, pure, Except.pure]⟩
  · simp [RuleEngine.calculate_price, RuleEngine.buildEvalContext, RuleEngine.substituteVars,
      dictGet, lookupKey, isStr, pyEvalArith, tokenize, tokenizeAux, scanNumber, parsePyNumber?,
      parseMantissa?, parseNatDigits?, splitSign, trimSpaces, splitOnChar, parseExpr, parseTerm,
      parseUnary, parsePower, parsePostfix, parseCalls, parseAtom, parseExprRest, parseTermRest,
      evalAst, evalOutcomeOrZero, pyReplace, replaceAllFuel,
      Except.bind, Except.pure, bind, pure]
  · simp [QuoteCalculationService._evaluate_formula, QuoteCalculationService.substPlaceholders,
      QuoteCalculationService.isSafeExpr, QuoteCalculationService.safeChars,
      dictGet, lookupKey, isStr, pyEvalArith, tokenize, tokenizeAux, scanNumber, parsePyNumber?,
      parseMantissa?, parseNatDigits?, splitSign, trimSpaces, splitOnChar, parseExpr, parseTerm,
      parseUnary, parsePower, parsePostfix, parseCalls, parseAtom, parseExprRest, parseTermRest,
      evalAst, Except.bind, Except.pure, bind, pure]

/-- Witness for C3's amended theorem: the unsafe-char filter of
`_evaluate_formula` at the expression `"1e2"` with no parameters. -/
theorem C3_restricted_evaluation_witness :
    QuoteCalculationService._evaluate_formula
        [("type", .vstr "expression"), ("expression", .vstr "1e2")] [] = .ok 0 :=
  C3_restricted_evaluation.1
    [("type", .vstr "expression"), ("expression", .vstr "1e2")] [] "1e2"
    (by simp [dictGet, lookupKey]) (by simp [dictGet, lookupKey]) (by decide)

open QuoteCalculationService in
/-- Closed form of `apply_discounts` with no discount configuration
(shared helper). -/
theorem apply_discounts_none (m s : ℚ) :
    apply_discounts m s none =
      Except.ok ⟨m, m, 0, 0, s, max 0 s, s - max 0 s, s - max 0 s⟩ := by
  simp [apply_discounts, pyDecimalE, pyDecimal?, dictGet, lookupKey, Option.getD,
    Except.bind, Except.pure, bind, pure]

/-- `mapM` over `Except` of a pointwise-successful function (shared
helper). -/
theorem exceptMapM_ok {α β : Type} (l : List α) (f : α → Except PyErr β) (g : α → β)
    (h : ∀ a ∈ l, f a = .ok (g a)) : l.mapM f = .ok (l.map g) := by
  induction l with
  | nil => rfl
  | cons a rest ih =>
    have ha := h a (List.mem_cons_self _ _)
    have hr := ih (fun x hx => h x (List.mem_cons_of_mem _ hx))
    rw [List.mapM_cons, ha, hr]
    rfl

open QuoteCalculationService in
/-- A projection row with no Year-1 reapplication: year `i+1` carries the
factor `(1+rate)^i` and setup only at `i = 0` (shared helper). -/
theorem projYearRow_no_y1 (b rate S : ℚ) (cfg : Option (List (String × Val))) (i : Nat) :
    projYearRow b rate S cfg false (i + 1) =
      Except.ok ⟨i + 1, b * (1 + rate) ^ i, b * (1 + rate) ^ i * 12,
        (if i = 0 then S else 0), 0,
        b * (1 + rate) ^ i * 12 + (if i = 0 then S else 0), none, none⟩ := by
  cases i with
  | zero => simp [projYearRow, Except.bind, Except.pure, bind, pure]
  | succ j => simp [projYearRow, Except.bind, Except.pure, bind, pure]

open QuoteCalculationService in
/-- Year 1 with a truthy discount config reapplies `saas_year1_pct`
(shared helper). -/
theorem projYearRow_y1 (b rate S : ℚ) (cfg : List (String × Val)) (y1 : ℚ)
    (hy1 : pyDecimalE (dictGet cfg "saas_year1_pct" (.vint 0)) = .ok y1) :
    projYearRow b rate S (some cfg) true 1 =
      Except.ok ⟨1, b * 12 * (1 - y1 / 100) / 12, b * 12 * (1 - y1 / 100), S, 0,
        b * 12 * (1 - y1 / 100) + S, none, none⟩ := by
  simp [projYearRow, hy1, Except.bind, Except.pure, bind, pure]

open QuoteCalculationService in
/-- Years after the first are untouched by the Year-1 reapplication
(shared helper). -/
theorem projYearRow_later (b rate S : ℚ) (cfg : Option (List (String × Val))) (j : Nat) :
    projYearRow b rate S cfg true (j + 2) =
      Except.ok ⟨j + 2, b * (1 + rate) ^ (j + 1), b * (1 + rate) ^ (j + 1) * 12, 0, 0,
        b * (1 + rate) ^ (j + 1) * 12, none, none⟩ := by
  simp [projYearRow, Except.bind, Except.pure, bind, pure]

open QuoteCalculationService in
/-- Closed form of the projection with no discount configuration (shared
helper). -/
theorem calc_proj_none (m s : ℚ) (N : Nat) (model : String) (tp : Bool) :
    calculate_multi_year_projection m s N model false tp none =
      Except.ok
        ⟨(List.range N).map (fun i =>
            ⟨i + 1, (if tp then m * (9 / 10) else m) * (1 + escalationRateOf model) ^ i,
             (if tp then m * (9 / 10) else m) * (1 + escalationRateOf model) ^ i * 12,
             (if i = 0 then max 0 s else 0), 0,
             (if tp then m * (9 / 10) else m) * (1 + escalationRateOf model) ^ i * 12 +
               (if i = 0 then max 0 s else 0), none, none⟩),
         (((List.range N).map (fun i =>
            (⟨i + 1, (if tp then m * (9 / 10) else m) * (1 + escalationRateOf model) ^ i,
             (if tp then m * (9 / 10) else m) * (1 + escalationRateOf model) ^ i * 12,
             (if i = 0 then max 0 s else 0), 0,
             (if tp then m * (9 / 10) else m) * (1 + escalationRateOf model) ^ i * 12 +
               (if i = 0 then max 0 s else 0), none, none⟩ : ProjYear))).map
            (fun y => y.total)).sum,
         model, false, tp⟩ := by
  simp only [calculate_multi_year_projection, apply_discounts_none, Except.bind, bind,
    Except.pure, pure]
  rw [exceptMapM_ok _ _ _ (fun i _ => projYearRow_no_y1 _ _ _ _ i)]
  simp

open QuoteCalculationService in
/-- Closed form of the projection with a truthy (non-empty) discount
configuration whose `saas_year1_pct` parses to `y1` (shared helper). -/
theorem calc_proj_cfg (m s : ℚ) (N : Nat) (model : String) (tp : Bool)
    (k0 : String) (v0 : Val) (rest : List (String × Val)) (dr : DiscountResult) (y1 : ℚ)
    (hd : apply_discounts m s (some ((k0, v0) :: rest)) = .ok dr)
    (hy1 : pyDecimalE (dictGet ((k0, v0) :: rest) "saas_year1_pct" (.vint 0)) = .ok y1) :
    calculate_multi_year_projection m s N model false tp (some ((k0, v0) :: rest)) =
      Except.ok
        ⟨(List.range N).map (fun i =>
            if i = 0 then
              ⟨1, (if tp then dr.saas_monthly_after * (9 / 10) else dr.saas_monthly_after) *
                    12 * (1 - y1 / 100) / 12,
               (if tp then dr.saas_monthly_after * (9 / 10) else dr.saas_monthly_after) *
                    12 * (1 - y1 / 100),
               dr.setup_after, 0,
               (if tp then dr.saas_monthly_after * (9 / 10) else dr.saas_monthly_after) *
                    12 * (1 - y1 / 100) + dr.setup_after, none, none⟩
            else
              ⟨i + 1, (if tp then dr.saas_monthly_after * (9 / 10) else dr.saas_monthly_after) *
                    (1 + escalationRateOf model) ^ i,
               (if tp then dr.saas_monthly_after * (9 / 10) else dr.saas_monthly_after) *
                    (1 + escalationRateOf model) ^ i * 12,
               0, 0,
               (if tp then dr.saas_monthly_after * (9 / 10) else dr.saas_monthly_after) *
                    (1 + escalationRateOf model) ^ i * 12, none, none⟩),
         (((List.range N).map (fun i =>
            if i = 0 then
              (⟨1, (if tp then dr.saas_monthly_after * (9 / 10) else dr.saas_monthly_after) *
                    12 * (1 - y1 / 100) / 12,
               (if tp then dr.saas_monthly_after * (9 / 10) else dr.saas_monthly_after) *
                    12 * (1 - y1 / 100),
               dr.setup_after, 0,
               (if tp then dr.saas_monthly_after * (9 / 10) else dr.saas_monthly_after) *
                    12 * (1 - y1 / 100) + dr.setup_after, none, none⟩ : ProjYear)
            else
              ⟨i + 1, (if tp then dr.saas_monthly_after * (9 / 10) else dr.saas_monthly_after) *
                    (1 + escalationRateOf model) ^ i,
               (if tp then dr.saas_monthly_after * (9 / 10) else dr.saas_monthly_after) *
                    (1 + escalationRateOf model) ^ i * 12,
               0, 0,
               (if tp then dr.saas_monthly_after * (9 / 10) else dr.saas_monthly_after) *
                    (1 + escalationRateOf model) ^ i * 12, none, none⟩)).map
            (fun y => y.total)).sum,
         model, false, tp⟩ := by
  simp only [calculate_multi_year_projection, hd, Except.bind, bind, Except.pure, pure]
  set B := (if tp = true then dr.saas_monthly_after * (9 / 10) else dr.saas_monthly_after)
    with hB
  have hrow : ∀ i ∈ List.range N,
      projYearRow B (escalationRateOf model) dr.setup_after
          (some ((k0, v0) :: rest)) true (i + 1) =
        Except.ok (if i = 0 then
          (⟨1, B * 12 * (1 - y1 / 100) / 12, B * 12 * (1 - y1 / 100), dr.setup_after, 0,
            B * 12 * (1 - y1 / 100) + dr.setup_after, none, none⟩ : ProjYear)
        else
          ⟨i + 1, B * (1 + escalationRateOf model) ^ i,
           B * (1 + escalationRateOf model) ^ i * 12, 0, 0,
           B * (1 + escalationRateOf model) ^ i * 12, none, none⟩) := by
    intro i _
    cases i with
    | zero =>
      simpa using projYearRow_y1 B (escalationRateOf model) dr.setup_after
        ((k0, v0) :: rest) y1 hy1
    | succ j =>
      simpa using projYearRow_later B (escalationRateOf model) dr.setup_after
        (some ((k0, v0) :: rest)) j
  rw [exceptMapM_ok (List.range N) _ _ hrow]
  simp

/-- C4 counterexample: with a year-1-only 50% discount, year 1's reported
monthly is 600 while the discounted base monthly (`saas_monthly_after`,
here 1200) times `(1+rate)^(1−1) = 1` is 1200 — the claimed per-year
formula fails at year 1 when a year-1 percentage is present. -/
theorem C4_counterexample :
    (QuoteCalculationService.calculate_multi_year_projection 1200 0 2 "NONE" false false
        (some [("saas_year1_pct", .vint 50)])).map
        (fun r => r.years.map (fun y => y.saas_monthly)) = .ok [600, 1200] ∧
    (QuoteCalculationService.apply_discounts 1200 0
        (some [("saas_year1_pct", .vint 50)])).map (fun r => r.saas_monthly_after) =
      .ok 1200 ∧
    (600 : ℚ) ≠ 1200 * (1 + QuoteCalculationService.escalationRateOf "NONE") ^ (1 - 1) := by
  refine ⟨?_, ?_, ?_⟩
  · simp [QuoteCalculationService.calculate_multi_year_projection,
      QuoteCalculationService.apply_discounts, QuoteCalculationService.projYearRow,
      QuoteCalculationService.escalationRateOf, pyDecimalE, pyDecimal?, dictGet, lookupKey,
      Except.bind, Except.pure, Except.map, bind, pure, List.range_succ, List.mapM_cons,
      List.mapM_nil, List.mapM.loop]
    norm_num
  · simp [QuoteCalculationService.apply_discounts, pyDecimalE, pyDecimal?, dictGet, lookupKey,
      Except.bind, Except.pure, Except.map, bind, pure]
  · norm_num [QuoteCalculationService.escalationRateOf]

/-- C4 (amended): the escalation rate resolves to 4% for `STANDARD_4PCT`,
0% for `NONE` and 4% for any other name; with no discount configuration,
year `n`'s monthly is the (teller-adjusted) base monthly times
`(1+rate)^(n−1)` and the setup lands in year 1 only; with a truthy
discount configuration the same holds for years `n ≥ 2`, while year 1's
monthly additionally carries the factor `(1 − saas_year1_pct/100)` (and
no escalation); with 2950.00 monthly, the 4% model and no discounts,
year 5's monthly is 2950·1.04⁴, strictly between 3450 and 3452. -/
theorem C4_projection :
    (QuoteCalculationService.escalationRateOf "STANDARD_4PCT" = 1 / 25 ∧
     QuoteCalculationService.escalationRateOf "NONE" = 0 ∧
     (∀ model : String, model ≠ "STANDARD_4PCT" → model ≠ "NONE" →
       QuoteCalculationService.escalationRateOf model = 1 / 25)) ∧
    (∀ (m s : ℚ) (N : Nat) (model : String) (tp : Bool),
      ∃ r, QuoteCalculationService.calculate_multi_year_projection m s N model false tp
          none = .ok r ∧
        r.years.map (fun y => y.saas_monthly) =
          (List.range N).map (fun i =>
            (if tp then m * (9 / 10) else m) *
              (1 + QuoteCalculationService.escalationRateOf model) ^ i) ∧
        r.years.map (fun y => y.setup) =
          (List.range N).map (fun i => if i = 0 then max 0 s else 0)) ∧
    (∀ (m s : ℚ) (N : Nat) (model : String) (tp : Bool) (k0 : String) (v0 : Val)
        (rest : List (String × Val)) (dr : QuoteCalculationService.DiscountResult) (y1 : ℚ),
      QuoteCalculationService.apply_discounts m s (some ((k0, v0) :: rest)) = .ok dr →
      pyDecimalE (dictGet ((k0, v0) :: rest) "saas_year1_pct" (.vint 0)) = .ok y1 →
      ∃ r, QuoteCalculationService.calculate_multi_year_projection m s N model false tp
          (some ((k0, v0) :: rest)) = .ok r ∧
        r.years.map (fun y => y.saas_monthly) =
          (List.range N).map (fun i =>
            if i = 0 then
              (if tp then dr.saas_monthly_after * (9 / 10) else dr.saas_monthly_after) *
                12 * (1 - y1 / 100) / 12
            else
              (if tp then dr.saas_monthly_after * (9 / 10) else dr.saas_monthly_after) *
                (1 + QuoteCalculationService.escalationRateOf model) ^ i) ∧
        r.years.map (fun y => y.setup) =
          (List.range N).map (fun i => if i = 0 then dr.setup_after else 0)) ∧
    ((QuoteCalculationService.calculate_multi_year_projection 2950 0 5 "STANDARD_4PCT"
        false false none).map (fun r => r.years.map (fun y => y.saas_monthly)) =
      .ok [2950, 3068, 79768 / 25, 2073968 / 625, 53923168 / 15625] ∧
     (3450 : ℚ) < 53923168 / 15625 ∧ (53923168 / 15625 : ℚ) < 3452) := by
  refine ⟨⟨by simp [QuoteCalculationService.escalationRateOf],
           by simp [QuoteCalculationService.escalationRateOf], ?_⟩, ?_, ?_, ?_, ?_, ?_⟩
  · intro model h1 h2
    simp [QuoteCalculationService.escalationRateOf, h1, h2]
  · intro m s N model tp
    refine ⟨_, calc_proj_none m s N model tp, ?_, ?_⟩
    · rw [List.map_map]
      rfl
    · rw [List.map_map]
      apply List.map_congr_left
      intro i _
      by_cases hi : i = 0 <;> simp [hi]
  · intro m s N model tp k0 v0 rest dr y1 hd hy1
    refine ⟨_, calc_proj_cfg m s N model tp k0 v0 rest dr y1 hd hy1, ?_, ?_⟩
    · rw [List.map_map]
      apply List.map_congr_left
      intro i _
      by_cases hi : i = 0 <;> simp [hi]
    · rw [List.map_map]
      apply List.map_congr_left
      intro i _
      by_cases hi : i = 0 <;> simp [hi]
  · rw [calc_proj_none]
    simp [List.range_succ, QuoteCalculationService.escalationRateOf, Except.map]
    norm_num
  · norm_num
  · norm_num

/-- Witness for C4's amended theorem: the truthy-config case at the
counterexample's inputs (1200 monthly, 2 years, `NONE` model, 50% year-1
discount). -/
theorem C4_projection_witness :
    ∃ r, QuoteCalculationService.calculate_multi_year_projection 1200 0 2 "NONE" false false
        (some [("saas_year1_pct", Val.vint 50)]) = .ok r ∧
      r.years.map (fun y => y.saas_monthly) =
        (List.range 2).map (fun i =>
          if i = 0 then
            (if false then
              (⟨1200, 1200, 7200, 0, 0, 0, 0, 7200⟩ :
                QuoteCalculationService.DiscountResult).saas_monthly_after * (9 / 10)
            else
              (⟨1200, 1200, 7200, 0, 0, 0, 0, 7200⟩ :
                QuoteCalculationService.DiscountResult).saas_monthly_after) *
              12 * (1 - 50 / 100) / 12
          else
            (if false then
              (⟨1200, 1200, 7200, 0, 0, 0, 0, 7200⟩ :
                QuoteCalculationService.DiscountResult).saas_monthly_after * (9 / 10)
            else
              (⟨1200, 1200, 7200, 0, 0, 0, 0, 7200⟩ :
                QuoteCalculationService.DiscountResult).saas_monthly_after) *
              (1 + QuoteCalculationService.escalationRateOf "NONE") ^ i) ∧
      r.years.map (fun y => y.setup) =
        (List.range 2).map (fun i =>
          if i = 0 then
            (⟨1200, 1200, 7200, 0, 0, 0, 0, 7200⟩ :
              QuoteCalculationService.DiscountResult).setup_after
          else 0) :=
  C4_projection.2.2.1 1200 0 2 "NONE" false "saas_year1_pct" (Val.vint 50) []
    ⟨1200, 1200, 7200, 0, 0, 0, 0, 7200⟩ 50
    (by simp [QuoteCalculationService.apply_discounts, pyDecimalE, pyDecimal?, dictGet,
      lookupKey, Except.bind, Except.pure, bind, pure]
        norm_num)
    (by simp [pyDecimalE, pyDecimal?, dictGet, lookupKey])
